import Mathlib

/-!
# Verification of the NeuroBlob simulation core

A shallow embedding, in Lean 4, of the Python sources of the NeuroBlob
artificial-life simulation (src/neuroblob.py, src/agent.py, src/world.py,
src/world_object.py, src/food.py, src/wall.py), together with theorems
settling the specification claims about it.

Modelling conventions:
* Python floats are modelled by the exact reals `ℝ`; the claims under
  study are about control flow, clamping and algebra, not about rounding.
* NumPy arrays are modelled by total functions (`ℕ → ℝ`, `ℕ → ℕ → ℝ`);
  only the indices below the live dimensions are ever read.
* Python operations that can raise are modelled in `Except String`; an
  `Except.error` value models a raised exception, and a raising call
  leaves the caller state untouched, as in Python, because the model is
  pure.
* Python `random` values (mutation masks, spawn positions, fresh ids)
  are taken as explicit parameters, so every theorem quantifies over
  them.
* Python attribute lookup on Food / Poison class constants is modelled
  by an explicit attribute table returning `Option ℝ`: a `none` models
  an `AttributeError` for a name no class in food.py defines.
-/

namespace NeuroBlobSim

/-- Python `int(x)` on a float: truncation toward zero. -/
noncomputable def pyint (x : ℝ) : ℤ := if 0 ≤ x then ⌊x⌋ else ⌈x⌉

/-- Python `a % b` on floats (floor-based remainder, used with `b > 0`). -/
noncomputable def pymod (a b : ℝ) : ℝ := a - b * ⌊a / b⌋

/-- Python `math.atan2(y, x)` (C-standard branch structure; `atan2 0 0 = 0`). -/
noncomputable def atan2 (y x : ℝ) : ℝ :=
  if 0 < x then Real.arctan (y / x)
  else if x < 0 then
    (if 0 ≤ y then Real.arctan (y / x) + Real.pi else Real.arctan (y / x) - Real.pi)
  else
    (if 0 < y then Real.pi / 2 else if y < 0 then -(Real.pi / 2) else 0)

/-- Python `range(lo, hi + 1)` over integers, as a list (empty when `hi < lo`). -/
def intRange (lo hi : ℤ) : List ℤ :=
  (List.range (hi + 1 - lo).toNat).map (fun n => lo + Int.ofNat n)

/-- NumPy `np.clip(x, lo, hi)`. -/
noncomputable def npClip (x lo hi : ℝ) : ℝ := min (max x lo) hi

/-- Checked division: Python float division raises `ZeroDivisionError` on a
zero denominator.  Used by the "checked" copies of the intersection
functions, which record every spot where Python could raise. -/
noncomputable def cdiv (a b : ℝ) : Except String ℝ :=
  if b = 0 then Except.error "ZeroDivisionError" else Except.ok (a / b)

/-- Checked square root: Python `math.sqrt` raises `ValueError` on a
negative argument. -/
noncomputable def csqrt (x : ℝ) : Except String ℝ :=
  if x < 0 then Except.error "ValueError: math domain error" else Except.ok (Real.sqrt x)

/-! ## src/neuroblob.py — the recurrent neural controller -/

/-- The `NeuroBlob` recurrent network: topology sizes, the weight matrix `W`
of shape `[n_recurrent, n_neurons]` and the persistent activation vector
`state` of length `n_neurons`, both modelled as total functions. -/
structure NeuroBlob where
  n_input : ℕ
  n_hidden : ℕ
  n_output : ℕ
  W : ℕ → ℕ → ℝ
  state : ℕ → ℝ

namespace NeuroBlob

def n_recurrent (nb : NeuroBlob) : ℕ := nb.n_hidden + nb.n_output

def n_neurons (nb : NeuroBlob) : ℕ := 1 + nb.n_input + nb.n_hidden + nb.n_output

def bias_idx (_nb : NeuroBlob) : ℕ := 0

def input_start (_nb : NeuroBlob) : ℕ := 1

def hidden_start (nb : NeuroBlob) : ℕ := nb.input_start + nb.n_input

def output_start (nb : NeuroBlob) : ℕ := nb.hidden_start + nb.n_hidden

/-- One entry of `np.dot(self.W, self.state)`: row `j` of `W` against the
state vector. -/
noncomputable def dot (nb : NeuroBlob) (s : ℕ → ℝ) (j : ℕ) : ℝ :=
  ∑ k in Finset.range nb.n_neurons, nb.W j k * s k

/-- The slice assignment `state[input_start:hidden_start] = input_values`. -/
noncomputable def writeInputs (nb : NeuroBlob) (s : ℕ → ℝ) (ins : List ℝ) : ℕ → ℝ :=
  fun i => if nb.input_start ≤ i ∧ i < nb.hidden_start then ins.getD (i - nb.input_start) 0 else s i

/-- One iteration of the inner loop of `step`:
`np.dot(W, state, out=buffer); np.tanh(buffer, out=state[hidden_start:])`.
Only the hidden-and-output slice is overwritten. -/
noncomputable def stepOnce (nb : NeuroBlob) (s : ℕ → ℝ) : ℕ → ℝ :=
  fun i =>
    if nb.hidden_start ≤ i ∧ i < nb.n_neurons then
      Real.tanh (nb.dot s (i - nb.hidden_start))
    else s i

/-- `NeuroBlob.step(input_values, steps_count)`: the length check (raising
`ValueError` on mismatch, before any state write), the input-slice
assignment, `steps_count` synchronous inner iterations, and the returned
output slice `state[output_start:]`. -/
noncomputable def step (nb : NeuroBlob) (input_values : List ℝ) (steps_count : ℕ) :
    Except String (List ℝ × NeuroBlob) :=
  if input_values.length ≠ nb.n_input then
    Except.error "ValueError: input size mismatch"
  else
    let s1 := nb.writeInputs nb.state input_values
    let s2 := nb.stepOnce^[steps_count] s1
    Except.ok ((List.range nb.n_output).map (fun j => s2 (nb.output_start + j)),
      { nb with state := s2 })

/-- `NeuroBlob.mutate(rate, scale)`: the random comparison matrix
`np.random.rand(...) < rate` is modelled by the boolean matrix `mask`, the
random perturbation `np.random.uniform(-scale, scale, W.shape)` by the
matrix `mutation`; then `W += mask * mutation` and
`np.clip(W, -1.0, 1.0, out=W)`. -/
noncomputable def mutate (nb : NeuroBlob) (mask : ℕ → ℕ → Bool) (mutation : ℕ → ℕ → ℝ) :
    NeuroBlob :=
  { nb with W := fun i j => npClip (nb.W i j + (if mask i j then mutation i j else 0)) (-1) 1 }

/-- `NeuroBlob.learn(reward, lr)`:
`delta = lr * reward * np.outer(state, state)`, then
`W += delta[-n_recurrent:, :]` (the rows of `delta` from `hidden_start`
on), then `np.clip(W, -1.0, 1.0, out=W)`. -/
noncomputable def learn (nb : NeuroBlob) (reward lr : ℝ) : NeuroBlob :=
  { nb with
    W := fun i j =>
      npClip (nb.W i j + lr * reward * (nb.state (nb.hidden_start + i) * nb.state j)) (-1) 1 }

/-- `NeuroBlob.load`: the persisted record is the pair of the nested list
`data[W]` and the flat list `data[state]`.  The source checks
`len(data['W']) != n_recurrent or len(data['W'][0]) != n_neurons` and
raises `ValueError` on mismatch, before any assignment; reading
`data['W'][0]` of an empty list raises `IndexError`.  The `state` field is
then assigned with no check of its length. -/
noncomputable def load (nb : NeuroBlob) (dataW : List (List ℝ)) (dataState : List ℝ) :
    Except String NeuroBlob :=
  if dataW.length ≠ nb.n_recurrent then
    Except.error "ValueError: incompatible weights structure"
  else
    match dataW.head? with
    | none => Except.error "IndexError: list index out of range"
    | some row0 =>
      if row0.length ≠ nb.n_neurons then
        Except.error "ValueError: incompatible weights structure"
      else
        Except.ok { nb with
          W := fun i j => (dataW.getD i []).getD j 0,
          state := fun i => dataState.getD i 0 }

end NeuroBlob

/-! ## src/world_object.py, src/food.py, src/wall.py — the entity model -/

/-- The `size` field of a WorldObject: a number makes the object a circle,
a pair makes it an axis-aligned rectangle (world_object.py `is_circle`,
`is_rectangle`). -/
inductive Shape where
  | circle (r : ℝ)
  | rect (w h : ℝ)

/-- The non-agent WorldObject subclasses of the repository.  `Poison`
inherits from `Food` in food.py and does not override `category`. -/
inductive PlainKind where
  | food
  | poison
  | wall
deriving DecidableEq

/-- The `category` class attribute: `Food.category = 'food'`;
`Poison` inherits it unchanged from `Food`; `Wall.category = 'wall'`. -/
def PlainKind.category : PlainKind → String
  | .food => "food"
  | .poison => "food"
  | .wall => "wall"

/-- Default draw color of each class, as the 0..255 triple of its
constructor default. -/
def PlainKind.classColor : PlainKind → ℝ × ℝ × ℝ
  | .food => (0, 255, 0)
  | .poison => (128, 0, 128)
  | .wall => (127, 127, 127)

/-- The class attribute table of food.py: `Food.ENERGY_EFFECT = 0.2`,
`Food.HEALTH_EFFECT = 0.0`, `Poison.ENERGY_EFFECT = 0.0`,
`Poison.HEALTH_EFFECT = -0.1`.  Looking up any other name — in
particular `ENERGY_COST` and `HEALTH_COST`, which no class in the
repository defines — yields `none`, modelling an `AttributeError`. -/
noncomputable def PlainKind.classAttr : PlainKind → String → Option ℝ
  | .food, "ENERGY_EFFECT" => some 0.2
  | .food, "HEALTH_EFFECT" => some 0.0
  | .poison, "ENERGY_EFFECT" => some 0.0
  | .poison, "HEALTH_EFFECT" => some (-0.1)
  | _, _ => none

/-- A non-agent world object: identity (uuid modelled as a natural),
class, position and shape. -/
structure WObj where
  id : ℕ
  kind : PlainKind
  x : ℝ
  y : ℝ
  shape : Shape
  color : ℝ × ℝ × ℝ

/-- An agent (src/agent.py): position, heading, energy, health, age,
score, its owned NeuroBlob brain and the last perception / action
vectors.  Its shape is a circle of radius 6 (`size=6` in the agent
constructor) and its category is `agent`. -/
structure Agent where
  id : ℕ
  x : ℝ
  y : ℝ
  angle : ℝ
  energy : ℝ
  health : ℝ
  age : ℕ
  score : ℤ
  brain : NeuroBlob
  inputs : List ℝ
  outputs : List ℝ

/-- A reference to any world object, as the World stores them. -/
inductive Obj where
  | agentObj (a : Agent)
  | plainObj (o : WObj)

namespace Obj

def id : Obj → ℕ
  | .agentObj a => a.id
  | .plainObj o => o.id

noncomputable def x : Obj → ℝ
  | .agentObj a => a.x
  | .plainObj o => o.x

noncomputable def y : Obj → ℝ
  | .agentObj a => a.y
  | .plainObj o => o.y

def category : Obj → String
  | .agentObj _ => "agent"
  | .plainObj o => o.kind.category

noncomputable def shape : Obj → Shape
  | .agentObj _ => .circle 6
  | .plainObj o => o.shape

noncomputable def color : Obj → ℝ × ℝ × ℝ
  | .agentObj _ => (0, 100, 255)
  | .plainObj o => o.color

/-- world_object.py `is_circle`. -/
noncomputable def isCircleB (o : Obj) : Bool :=
  match o.shape with
  | .circle _ => true
  | .rect _ _ => false

/-- world_object.py `is_rectangle`. -/
noncomputable def isRectB (o : Obj) : Bool := !o.isCircleB

/-- world_object.py `width`: the rectangle width, or `2 * size` for a circle. -/
noncomputable def width (o : Obj) : ℝ :=
  match o.shape with
  | .circle r => 2 * r
  | .rect w _ => w

/-- world_object.py `height`. -/
noncomputable def height (o : Obj) : ℝ :=
  match o.shape with
  | .circle r => 2 * r
  | .rect _ h => h

/-- world_object.py `radius`: the circle radius, or half the rectangle
diagonal. -/
noncomputable def radius (o : Obj) : ℝ :=
  match o.shape with
  | .circle r => r
  | .rect w h => Real.sqrt ((w / 2) ^ 2 + (h / 2) ^ 2)

/-- world_object.py `health` attribute: the base constructor sets 1.0 for
every object; for agents the attribute is the live agent health. -/
noncomputable def health : Obj → ℝ
  | .agentObj a => a.health
  | .plainObj _ => 1

noncomputable def setPos (o : Obj) (nx ny : ℝ) : Obj :=
  match o with
  | .agentObj a => .agentObj { a with x := nx, y := ny }
  | .plainObj p => .plainObj { p with x := nx, y := ny }

/-- world_object.py `collide`, case `(circle, rectangle)`: the circle is
clamped against the rectangle bounds and only the circle is moved by the
penetration depth.  Returns the moved circle. -/
noncomputable def collideCircleRect (c r : Obj) : Obj :=
  let closestX := npClip c.x (r.x - r.width / 2) (r.x + r.width / 2)
  let closestY := npClip c.y (r.y - r.height / 2) (r.y + r.height / 2)
  let dX := c.x - closestX
  let dY := c.y - closestY
  let distance := Real.sqrt (dX ^ 2 + dY ^ 2)
  if distance < c.radius ∧ distance ≠ 0 then
    c.setPos (c.x + dX / distance * (c.radius - distance))
      (c.y + dY / distance * (c.radius - distance))
  else c

/-- world_object.py `collide(self, obj)`: the four shape cases.  Returns
the pair (self after, obj after).  The `(rect, circle)` case delegates to
`obj.collide(self)`, which moves only the circle; two rectangles ignore
each other. -/
noncomputable def collide (self other : Obj) : Obj × Obj :=
  match self.isCircleB, other.isCircleB with
  | true, true =>
    let dPosX := self.x - other.x
    let dPosY := self.y - other.y
    let distance := Real.sqrt (dPosX ^ 2 + dPosY ^ 2)
    let minDistance := self.radius + other.radius
    if distance < minDistance ∧ distance ≠ 0 then
      let corrX := dPosX / distance * (minDistance - distance) / 2
      let corrY := dPosY / distance * (minDistance - distance) / 2
      (self.setPos (self.x + corrX) (self.y + corrY),
       other.setPos (other.x - corrX) (other.y - corrY))
    else (self, other)
  | true, false => (collideCircleRect self other, other)
  | false, true => (self, collideCircleRect other self)
  | false, false => (self, other)

end Obj

/-! ## src/agent.py — perception, thinking, acting, metabolism -/

namespace Agent

def VISION_RAYS : ℕ := 11

noncomputable def VISION_DISTANCE : ℝ := 100.0

noncomputable def VISION_ANGLE : ℝ := 120 * (Real.pi / 180)

noncomputable def CONSUME_LEVEL : ℝ := 0.0

noncomputable def PASSIVE_COST : ℝ := 0.0001

noncomputable def MOVEMENT_COST_FACTOR : ℝ := 0.001

noncomputable def BITING_COST : ℝ := 0.005

noncomputable def REGEN_COST : ℝ := PASSIVE_COST

/-- The agent constructor passes `size=6`, so the agent is a circle of
radius 6. -/
noncomputable def radius (_a : Agent) : ℝ := 6

/-- agent.py `grid_radius`: the query radius used for its neighbourhood. -/
noncomputable def grid_radius (_a : Agent) : ℝ := VISION_DISTANCE

noncomputable def toObj (a : Agent) : Obj := .agentObj a

/-- `Agent._apply_energy_cost(cost)`: energy pays the cost; a deficit is
drawn from health, energy floors at 0 and health is clamped at 0. -/
noncomputable def applyEnergyCost (a : Agent) (cost : ℝ) : Agent :=
  if a.energy > cost then { a with energy := a.energy - cost }
  else { a with energy := 0, health := max 0 (a.health - (cost - a.energy)) }

/-- `Agent._restore_health()`:
`heal = min(REGEN_COST, 1 - health, energy); health += heal; energy -= heal`. -/
noncomputable def restoreHealth (a : Agent) : Agent :=
  if a.health < 1 then
    let heal := min REGEN_COST (min (1 - a.health) a.energy)
    { a with health := a.health + heal, energy := a.energy - heal }
  else a

/-- `Agent._process_consumption(food)`.  The source reads
`food.ENERGY_COST` and `food.HEALTH_COST`; food.py defines
`ENERGY_EFFECT` / `HEALTH_EFFECT` instead, so the lookups are modelled
through the class attribute table and a missing name is an
`AttributeError`, raised before any assignment (the first source line
already reads `food.ENERGY_COST`).  `LEARNING` is `False`, so the
trailing `self.brain.learn(...)` call is never executed. -/
noncomputable def processConsumption (a : Agent) (food : Obj) : Except String Agent :=
  let attr := fun nm => match food with
    | .plainObj o => o.kind.classAttr nm
    | .agentObj _ => none
  match attr "ENERGY_COST" with
  | none => Except.error "AttributeError: ENERGY_COST"
  | some ec =>
    let a1 := { a with energy := min 1 (a.energy + ec) }
    match attr "HEALTH_COST" with
    | none => Except.error "AttributeError: HEALTH_COST"
    | some hc =>
      Except.ok { a1 with
        health := max 0 (a1.health + hc),
        score := a1.score + (if ec ≠ 0 then 1 else -1) }

/-- The scan loop of `Agent._consume_if_possible`: visit the nearby
objects in iteration order; the first object within
`(radius + obj.radius) * 1.2` and inside the forward vision cone ends the
loop — via the `food` match branch (with the interacted object recorded)
when its category is `food`, and with no effect otherwise. -/
noncomputable def consumeLoop (a : Agent) : List Obj → Except String (Agent × Option Obj)
  | [] => Except.ok (a, none)
  | obj :: rest =>
    let dx := obj.x - a.x
    let dy := obj.y - a.y
    let distance := Real.sqrt (dx ^ 2 + dy ^ 2)
    let ang := pymod (atan2 dy dx + Real.pi - a.angle) (2 * Real.pi) - Real.pi
    if distance > (a.radius + obj.radius) * 1.2 ∨ |ang| > VISION_ANGLE / 2 then
      a.consumeLoop rest
    else if obj.category = "food" then
      (a.processConsumption obj).map (fun a2 => (a2, some obj))
    else Except.ok (a, none)

/-- `Agent._consume_if_possible(nearests)`: the biting cost is paid
first, regardless of outcome, then the scan loop runs. -/
noncomputable def consumeIfPossible (a : Agent) (nearests : List Obj) :
    Except String (Agent × Option Obj) :=
  (a.applyEnergyCost BITING_COST).consumeLoop nearests

/-- `Agent._rotate(d_theta)`. -/
noncomputable def rotate (a : Agent) (dTheta : ℝ) : Agent :=
  { a with angle := pymod (a.angle + dTheta) (2 * Real.pi) }

/-- `Agent._move(velocity)`: no world-bounds clamping in the source. -/
noncomputable def move (a : Agent) (velocity : ℝ) : Agent :=
  { a with x := a.x + Real.cos a.angle * velocity, y := a.y + Real.sin a.angle * velocity }

/-- `Agent._intersect_ray_circle(ray_dir, obj)`: fast reject on
`t_m > (VISION_DISTANCE + obj.radius) ** 2`, reject on `t_ca < 0`, reject
on a negative discriminant (`d2 > radius ** 2`), else the smaller root if
non-negative, else the larger root if non-negative, else no hit. -/
noncomputable def intersectRayCircle (a : Agent) (rdx rdy : ℝ) (obj : Obj) : Option ℝ :=
  let Lx := obj.x - a.x
  let Ly := obj.y - a.y
  let t_m := Lx * Lx + Ly * Ly
  if t_m > (VISION_DISTANCE + obj.radius) ^ 2 then none
  else
    let t_ca := Lx * rdx + Ly * rdy
    if t_ca < 0 then none
    else
      let d2 := t_m - t_ca * t_ca
      if d2 > obj.radius * obj.radius then none
      else
        let t_hc := Real.sqrt (obj.radius * obj.radius - d2)
        let t0 := t_ca - t_hc
        let t1 := t_ca + t_hc
        if 0 ≤ t0 then some t0 else if 0 ≤ t1 then some t1 else none

/-- The checked copy of `_intersect_ray_circle`: the only Python-partial
operation in it is `math.sqrt`, modelled by `csqrt`. -/
noncomputable def intersectRayCircleChk (a : Agent) (rdx rdy : ℝ) (obj : Obj) :
    Except String (Option ℝ) :=
  let Lx := obj.x - a.x
  let Ly := obj.y - a.y
  let t_m := Lx * Lx + Ly * Ly
  if t_m > (VISION_DISTANCE + obj.radius) ^ 2 then Except.ok none
  else
    let t_ca := Lx * rdx + Ly * rdy
    if t_ca < 0 then Except.ok none
    else
      let d2 := t_m - t_ca * t_ca
      if d2 > obj.radius * obj.radius then Except.ok none
      else do
        let t_hc ← csqrt (obj.radius * obj.radius - d2)
        let t0 := t_ca - t_hc
        let t1 := t_ca + t_hc
        Except.ok (if 0 ≤ t0 then some t0 else if 0 ≤ t1 then some t1 else none)

/-- One `x_edge` iteration of `_intersect_ray_rectangle`: when
`x_edge * ray_dir[0] > 0`, the edge crossing is computed (two divisions
by `ray_dir[0]`) and kept when the crossing ordinate lies between the
two `y` edges. -/
noncomputable def rectEdgeStep (rc ro otherMax otherMin dist edge : ℝ) : ℝ :=
  if edge * rc > 0 then
    let inter := edge / rc * ro
    if (otherMax - inter) * (otherMin - inter) ≤ 0 then min (edge / rc) dist else dist
  else dist

/-- The checked copy of `rectEdgeStep`: both divisions go through
`cdiv`. -/
noncomputable def rectEdgeStepChk (rc ro otherMax otherMin dist edge : ℝ) :
    Except String ℝ :=
  if edge * rc > 0 then do
    let q ← cdiv edge rc
    let inter := q * ro
    if (otherMax - inter) * (otherMin - inter) ≤ 0 then do
      let q2 ← cdiv edge rc
      Except.ok (min q2 dist)
    else Except.ok dist
  else Except.ok dist

/-- `Agent._intersect_ray_rectangle(ray_dir, obj)`: for each rectangle
edge whose coordinate has the same sign as the matching ray component,
the crossing distance is kept if the crossing point lies between the
other two edges; the result starts at `VISION_DISTANCE` and takes
minima.  Each division is guarded by the sign test
`edge * component > 0`. -/
noncomputable def intersectRayRectangle (a : Agent) (rdx rdy : ℝ) (obj : Obj) : ℝ :=
  let dx := obj.x - a.x
  let dy := obj.y - a.y
  let maxX := dx + obj.width / 2
  let minX := dx - obj.width / 2
  let maxY := dy + obj.height / 2
  let minY := dy - obj.height / 2
  rectEdgeStep rdy rdx maxX minX
    (rectEdgeStep rdy rdx maxX minX
      (rectEdgeStep rdx rdy maxY minY
        (rectEdgeStep rdx rdy maxY minY VISION_DISTANCE maxX) minX) maxY) minY

/-- The checked copy of `_intersect_ray_rectangle`: every division goes
through `cdiv`. -/
noncomputable def intersectRayRectangleChk (a : Agent) (rdx rdy : ℝ) (obj : Obj) :
    Except String ℝ :=
  let dx := obj.x - a.x
  let dy := obj.y - a.y
  let maxX := dx + obj.width / 2
  let minX := dx - obj.width / 2
  let maxY := dy + obj.height / 2
  let minY := dy - obj.height / 2
  do
    let d1 ← rectEdgeStepChk rdx rdy maxY minY VISION_DISTANCE maxX
    let d2 ← rectEdgeStepChk rdx rdy maxY minY d1 minX
    let d3 ← rectEdgeStepChk rdy rdx maxX minX d2 maxY
    let d4 ← rectEdgeStepChk rdy rdx maxX minX d3 minY
    Except.ok d4

/-- The per-object body of the ray loop in `Agent._sense`: the running
state is `(dist, best_score, best_color)` — `dist` is assigned anew for a
circle or a rectangle and, like in the source, persists across loop
iterations.  An object identical to the agent (`obj is self`) is
skipped. -/
noncomputable def senseStep (a : Agent) (rdx rdy : ℝ)
    (st : Option ℝ × ℝ × (ℝ × ℝ × ℝ)) (obj : Obj) : Option ℝ × ℝ × (ℝ × ℝ × ℝ) :=
  if obj.id = a.id then st
  else
    let dist := if obj.isCircleB then a.intersectRayCircle rdx rdy obj else st.1
    let dist := if obj.isRectB then some (a.intersectRayRectangle rdx rdy obj) else dist
    match dist with
    | none => (dist, st.2)
    | some d =>
      if d > VISION_DISTANCE then (dist, st.2)
      else
        let proximity := 1 - d / VISION_DISTANCE
        if proximity > st.2.1 then
          (dist, proximity, (obj.color.1 / 255, obj.color.2.1 / 255, obj.color.2.2 / 255))
        else (dist, st.2)

/-- One ray of `Agent._sense`: ray `i` of `VISION_RAYS`, spread across the
vision cone, folded over the nearby objects; contributes
`[best_score, r, g, b]` to the input vector. -/
noncomputable def senseRay (a : Agent) (i : ℕ) (nearests : List Obj) : List ℝ :=
  let startAngle := a.angle - VISION_ANGLE / 2
  let rayAngle := startAngle + ((i : ℝ) / ((VISION_RAYS : ℝ) - 1)) * VISION_ANGLE
  let rdx := Real.cos rayAngle
  let rdy := Real.sin rayAngle
  let st := nearests.foldl (a.senseStep rdx rdy) (none, 0, (0, 0, 0))
  [st.2.1, st.2.2.1, st.2.2.2.1, st.2.2.2.2]

/-- `Agent._sense(nearests)`: the 11 ray contributions followed by
`1 - energy` and `1 - health`. -/
noncomputable def senseInputs (a : Agent) (nearests : List Obj) : List ℝ :=
  ((List.range VISION_RAYS).map (fun i => a.senseRay i nearests)).flatten
    ++ [1 - a.energy, 1 - a.health]

/-- `Agent._act(nearests)`: unpack `(d_theta, velocity, eat_flag)` from
the output vector (a `ValueError` if it does not have three entries),
damp `d_theta` by 0.1, increment age, rotate, move, consume when
`eat_flag > CONSUME_LEVEL`, pay `PASSIVE_COST + MOVEMENT_COST_FACTOR *
velocity ** 2`, regenerate health.  `LEARNING` is `False`, so the
learning block at the end of the source is never executed. -/
noncomputable def act (a : Agent) (nearests : List Obj) : Except String (Agent × Option Obj) :=
  match a.outputs with
  | [dTheta0, velocity, eatFlag] =>
    let dTheta := dTheta0 * 0.1
    let a1 := { a with age := a.age + 1 }
    let a2 := (a1.rotate dTheta).move velocity
    do
      let pr ← if eatFlag > CONSUME_LEVEL then a2.consumeIfPossible nearests
               else Except.ok (a2, none)
      let totalCost := PASSIVE_COST + MOVEMENT_COST_FACTOR * velocity ^ 2
      let a3 := (pr.1.applyEnergyCost totalCost).restoreHealth
      Except.ok (a3, pr.2)
  | _ => Except.error "ValueError: cannot unpack outputs"

/-- `Agent.update(nearests, think_steps)`: clear the interaction, sense,
think (one brain step), act; the interaction outcome of the tick is the
second component. -/
noncomputable def updateFull (a : Agent) (nearests : List Obj) (thinkSteps : ℕ) :
    Except String (Agent × Option Obj) :=
  let a1 := { a with inputs := a.senseInputs nearests }
  do
    let pr ← a1.brain.step a1.inputs thinkSteps
    let a2 := { a1 with outputs := pr.1, brain := pr.2 }
    a2.act nearests

end Agent

/-! ## src/world.py — the world, its category dict and the spatial grid

The Python `objects_by_category` dict of sets is modelled as an
association list from category string to object list, deduplicated by
object id (WorldObject equality and hash are by uuid).  The spatial grid
`grid : Dict[cell, Set[WorldObject]]` holds references; it is modelled as
a total function from cell to the list of registered ids, `[]` for an
untouched cell (the dict is initialised with every cell empty, and
queries use `.get(cell, set())`), and a query resolves each id against
the live category dict, which models reference semantics. -/

/-- Python set `add` keyed by object id: no effect when the id is already
present. -/
def setInsertId (i : ℕ) (l : List ℕ) : List ℕ := if i ∈ l then l else l ++ [i]

structure World where
  width : ℝ
  height : ℝ
  cats : List (String × List Obj)
  grid : ℤ × ℤ → List ℕ

namespace World

/-- The hard-coded `grid_size = (8, 6)` (columns, rows). -/
def GRID_COLS : ℤ := 8

def GRID_ROWS : ℤ := 6

/-- Lookup of one category set (`objects_by_category.get(category, set())`
behaviour of `get_objects`; a missing key is empty). -/
def getCat (cats : List (String × List Obj)) (c : String) : List Obj :=
  match cats.find? (fun p => p.1 = c) with
  | some p => p.2
  | none => []

/-- Python set `add` of an object into its category set, creating the key
on first use (objects compare by id). -/
def addToCat (cats : List (String × List Obj)) (c : String) (o : Obj) :
    List (String × List Obj) :=
  if cats.any (fun p => p.1 = c) then
    cats.map (fun p =>
      if p.1 = c then (p.1, if p.2.any (fun q => q.id = o.id) then p.2 else p.2 ++ [o]) else p)
  else cats ++ [(c, [o])]

/-- Python set `discard` of an id from its category set. -/
def removeFromCat (cats : List (String × List Obj)) (c : String) (i : ℕ) :
    List (String × List Obj) :=
  cats.map (fun p => if p.1 = c then (p.1, p.2.filter (fun q => q.id ≠ i)) else p)

/-- In-place mutation of a stored object (Python mutates through the
reference): every stored object with the same id becomes the new value. -/
def replaceObj (cats : List (String × List Obj)) (o : Obj) : List (String × List Obj) :=
  cats.map (fun p => (p.1, p.2.map (fun q => if q.id = o.id then o else q)))

/-- `get_objects(None)` unions all category sets. -/
def allObjects (w : World) : List Obj := (w.cats.map Prod.snd).flatten

/-- Resolution of a grid-stored reference to the live object. -/
def findObj (w : World) (i : ℕ) : Option Obj := w.allObjects.find? (fun o => o.id = i)

/-- `World.get_objects(category)` for a concrete category string (the
returned set is a copy, which a pure model needs not distinguish). -/
def getObjects (w : World) (c : String) : List Obj := getCat w.cats c

/-- `World._get_object_cells(obj)`: the grid cells the object bounding
box overlaps, clamped into the 8 x 6 grid (`hasattr(obj, 'radius')` holds
for every WorldObject). -/
noncomputable def getObjectCells (w : World) (o : Obj) : List (ℤ × ℤ) :=
  let left := (o.x - o.width / 2) / w.width
  let right := (o.x + o.width / 2) / w.width
  let bottom := (o.y - o.height / 2) / w.height
  let top := (o.y + o.height / 2) / w.height
  let minCol := max 0 (pyint (left * (GRID_COLS : ℝ)))
  let maxCol := min (GRID_COLS - 1) (pyint (right * (GRID_COLS : ℝ)))
  let minRow := max 0 (pyint (bottom * (GRID_ROWS : ℝ)))
  let maxRow := min (GRID_ROWS - 1) (pyint (top * (GRID_ROWS : ℝ)))
  (intRange minCol maxCol).flatMap (fun c => (intRange minRow maxRow).map (fun r => (c, r)))

/-- `World._add_to_grid(obj, cells)`. -/
def gridAdd (g : ℤ × ℤ → List ℕ) (i : ℕ) (cells : List (ℤ × ℤ)) : ℤ × ℤ → List ℕ :=
  fun c => if c ∈ cells then setInsertId i (g c) else g c

/-- `World._remove_from_grid(obj, cells)` (set `discard`). -/
def gridRemove (g : ℤ × ℤ → List ℕ) (i : ℕ) (cells : List (ℤ × ℤ)) : ℤ × ℤ → List ℕ :=
  fun c => if c ∈ cells then (g c).filter (fun j => j ≠ i) else g c

/-- `World._update_object_in_grid(obj, old_cells)`: remove from the cells
no longer covered, add to the newly covered cells. -/
noncomputable def updateObjectInGrid (w : World) (o : Obj)
    (oldCells : Option (List (ℤ × ℤ))) : World :=
  let newCells := w.getObjectCells o
  let g1 := match oldCells with
    | some oc => gridRemove w.grid o.id (oc.filter (fun c => c ∉ newCells))
    | none => w.grid
  let g2 := gridAdd g1 o.id (newCells.filter (fun c =>
    match oldCells with
    | some oc => c ∉ oc
    | none => True))
  { w with grid := g2 }

/-- Registration shared by `add_object` and `_add_wall`: insert into the
category set (creating the key from the object category) and into the
grid cells of the object. -/
noncomputable def addCommon (w : World) (o : Obj) : World :=
  { w with
    cats := addToCat w.cats o.category o,
    grid := gridAdd w.grid o.id (w.getObjectCells o) }

/-- `World.add_object(obj_class, 1, pos)` for the Food / Poison classes
(`count=1`; the random position and the fresh uuid are parameters).
Both classes construct a circle of size 3 with the class default color.
(`Wall` cannot be created through `add_object`: its constructor requires
a size argument `add_object` does not pass.) -/
noncomputable def addObjectPlain (w : World) (k : PlainKind) (pos : ℝ × ℝ) (i : ℕ) : World :=
  let o : WObj :=
    { id := i, kind := k, x := pos.1, y := pos.2, shape := .circle 3, color := k.classColor }
  addCommon w (.plainObj o)

/-- `World.add_object(Agent, 1, pos)`: the constructed agent (with its
random heading and random brain) is a parameter. -/
noncomputable def addAgentObj (w : World) (a : Agent) : World :=
  addCommon w (.agentObj a)

/-- `World.remove_object(obj)`: discard from the cells of its current
position and from its category set. -/
noncomputable def removeObject (w : World) (o : Obj) : World :=
  { w with
    grid := gridRemove w.grid o.id (w.getObjectCells o),
    cats := removeFromCat w.cats o.category o.id }

/-- The left boundary wall `Wall((0, height/2), (2, height))` (its uuid
modelled by the fixed fresh id 1000). -/
noncomputable def wallL (_width height : ℝ) : WObj :=
  { id := 1000, kind := .wall, x := 0, y := height / 2, shape := .rect 2 height,
    color := PlainKind.classColor .wall }

/-- The right boundary wall `Wall((width, height/2), (2, height))`. -/
noncomputable def wallR (width height : ℝ) : WObj :=
  { id := 1001, kind := .wall, x := width, y := height / 2, shape := .rect 2 height,
    color := PlainKind.classColor .wall }

/-- The top boundary wall `Wall((width/2, 0), (width, 2))`. -/
noncomputable def wallT (width _height : ℝ) : WObj :=
  { id := 1002, kind := .wall, x := width / 2, y := 0, shape := .rect width 2,
    color := PlainKind.classColor .wall }

/-- The bottom boundary wall `Wall((width/2, height), (width, 2))`. -/
noncomputable def wallB (width height : ℝ) : WObj :=
  { id := 1003, kind := .wall, x := width / 2, y := height, shape := .rect width 2,
    color := PlainKind.classColor .wall }

/-- `World.__init__(width, height)`: the empty grid and category dict,
then the four boundary walls of `wall_width = 2`. -/
noncomputable def init (width height : ℝ) : World :=
  let w0 : World := { width := width, height := height, cats := [], grid := fun _ => [] }
  addCommon (addCommon (addCommon (addCommon w0 (.plainObj (wallL width height)))
    (.plainObj (wallR width height))) (.plainObj (wallT width height)))
    (.plainObj (wallB width height))

/-- `World.get_objects_in_area(pos, radius)`: the cell range overlapping
the disk, the candidate set collected from those cells (resolving the
stored references against the live objects) and the exact distance
filter `squaredDistance <= (radius + candidate.radius) ** 2`. -/
noncomputable def getObjectsInArea (w : World) (px py radiusArg : ℝ) : List Obj :=
  let left := max 0 ((px - radiusArg) / w.width)
  let right := min 1 ((px + radiusArg) / w.width)
  let bottom := max 0 ((py - radiusArg) / w.height)
  let top := min 1 ((py + radiusArg) / w.height)
  let minCol := pyint (left * (GRID_COLS : ℝ))
  let maxCol := pyint (right * (GRID_COLS : ℝ))
  let minRow := pyint (bottom * (GRID_ROWS : ℝ))
  let maxRow := pyint (top * (GRID_ROWS : ℝ))
  let cells := (intRange minCol maxCol).flatMap
    (fun c => (intRange minRow maxRow).map (fun r => (c, r)))
  let candIds := cells.foldl (fun acc cell => (w.grid cell).foldl (fun ac i => setInsertId i ac) acc) []
  let candidates := candIds.filterMap w.findObj
  candidates.filter (fun o =>
    (o.x - px) ^ 2 + (o.y - py) ^ 2 ≤ (radiusArg + o.radius) ^ 2)

/-- The collision pass of `World.update` for one agent: for every object
of `closest` (queried at the live agent position with the agent radius),
`obj.collide(close)` runs with the live states and both ends are written
back, then the close object is re-registered from its pre-collision
cells. -/
noncomputable def collidePhase (w : World) (aid : ℕ) : World :=
  match w.findObj aid with
  | some self0 =>
    let closest := w.getObjectsInArea self0.x self0.y self0.radius
    closest.foldl (fun wAcc close =>
      match wAcc.findObj aid, wAcc.findObj close.id with
      | some selfNow, some closeNow =>
        let oldCellsClose := wAcc.getObjectCells closeNow
        let pr := selfNow.collide closeNow
        let w1 : World := { wAcc with cats := replaceObj (replaceObj wAcc.cats pr.1) pr.2 }
        w1.updateObjectInGrid pr.2 (some oldCellsClose)
      | _, _ => wAcc) w
  | none => w

/-- One iteration of the action phase of `World.update`, for the agent
with id `aid` of the snapshot: remember the old cells, query the
neighbourhood at `grid_radius`, run `Agent.update`, write the mutated
agent back, on an interaction remove the eaten object and respawn one of
its class at a random position (`sp`) with a fresh uuid (`fid`), run the
collision pass, then re-register the agent from its old cells.  An
exception from the agent propagates out of `World.update`. -/
noncomputable def stepAgentById (w : World) (aid : ℕ) (fid : ℕ) (sp : ℝ × ℝ) :
    Except String World :=
  match w.findObj aid with
  | some (.agentObj a) =>
    let oldCells := w.getObjectCells (.agentObj a)
    let nearests := w.getObjectsInArea a.x a.y a.grid_radius
    do
      let pr ← a.updateFull nearests 1
      let a2 := pr.1
      let w1 : World := { w with cats := replaceObj w.cats (.agentObj a2) }
      let w2 := match pr.2 with
        | some tobj =>
          match tobj with
          | .plainObj o => (w1.removeObject tobj).addObjectPlain o.kind sp fid
          | .agentObj _ => w1.removeObject tobj
        | none => w1
      let w3 := collidePhase w2 aid
      let w4 := match w3.findObj aid with
        | some oNow => w3.updateObjectInGrid oNow (some oldCells)
        | none => w3
      Except.ok w4
  | _ => Except.ok w

/-- `World.update()` (the action phase): iterate over a snapshot of the
agent category (Python set iteration order is the stored order of the
model), supplying each iteration its random respawn position and fresh
uuid from the streams `fids` and `sps`. -/
noncomputable def update (w : World) (fids : ℕ → ℕ) (sps : ℕ → ℝ × ℝ) :
    Except String World :=
  let ids := (w.getObjects "agent").map Obj.id
  ids.enum.foldlM (fun wAcc p => stepAgentById wAcc p.2 (fids p.1) (sps p.1)) w

end World

/-- The worlds the simulation constructs: `World(width, height)` followed
by any sequence of `add_object` calls (simulation_manager.py spawns Food,
Poison and Agent objects this way). -/
inductive WorldReachable : World → Prop
  | init : ∀ width height, WorldReachable (World.init width height)
  | addPlain : ∀ w k pos i, WorldReachable w → WorldReachable (w.addObjectPlain k pos i)
  | addAgent : ∀ w a, WorldReachable w → WorldReachable (w.addAgentObj a)

/-! ## Concrete instances used by the evaluation theorems -/

/-- The brain topology the agent constructor builds
(`n_input = 11 * 4 + 2 = 46`, `n_hidden = (46 + 3) * 2 = 98`,
`n_output = 3`), here with the all-zero weight draw and the freshly
initialised state (bias 1, all other activations 0). -/
noncomputable def brainZero : NeuroBlob :=
  { n_input := 46, n_hidden := 98, n_output := 3, W := fun _ _ => 0,
    state := fun i => if i = 0 then 1 else 0 }

/-- A minimal topology (1 input, 1 hidden, 1 output) used to probe
`step` and `load`. -/
noncomputable def brainTiny : NeuroBlob :=
  { n_input := 1, n_hidden := 1, n_output := 1, W := fun _ _ => 0,
    state := fun i => if i = 0 then 1 else 0 }

/-- A freshly constructed agent at a chosen position and heading (the
constructor draws the heading at random; it is a parameter here). -/
noncomputable def probeAgent (px py ang : ℝ) : Agent :=
  { id := 0, x := px, y := py, angle := ang, energy := 1, health := 1, age := 0,
    score := 0, brain := brainTiny, inputs := [], outputs := [0, 0, 0] }

/-- A food object (circle of radius `r` as `Food.__init__` builds it,
generalised radius for the geometry theorems). -/
noncomputable def circFood (i : ℕ) (cx cy r : ℝ) : Obj :=
  Obj.plainObj
    { id := i, kind := .food, x := cx, y := cy, shape := .circle r,
      color := PlainKind.classColor .food }

/-- A poison object at a chosen position. -/
noncomputable def poisonAt (i : ℕ) (cx cy : ℝ) : Obj :=
  Obj.plainObj
    { id := i, kind := .poison, x := cx, y := cy, shape := .circle 3,
      color := PlainKind.classColor .poison }

/-- The agent of the consumption scenario: at the origin, heading 0,
full energy and health, with eat intent 1 above the consume threshold. -/
noncomputable def agentEater : Agent :=
  { probeAgent 0 0 0 with id := 7, outputs := [0, 0, 1] }

/-- A food item exactly `radius + foodRadius = 6 + 3 = 9` ahead of the
origin-based agent. -/
noncomputable def foodAhead : Obj := circFood 8 9 0 3

/-- The dead-agent scenario: an agent at the centre of an 800 x 600
world, heading 0, the all-zero brain, with no energy left and health
`1/20000`, which one tick of passive cost drives to exactly 0. -/
noncomputable def agent0 : Agent :=
  { id := 7, x := 400, y := 300, angle := 0, energy := 0, health := 1 / 20000, age := 0,
    score := 0, brain := brainZero, inputs := [], outputs := [0, 0, 0] }

/-- The world of the dead-agent scenario: the constructor walls of an
800 x 600 world plus `agent0`, registered as `add_object` registers
agents. -/
noncomputable def w0 : World := (World.init 800 600).addAgentObj agent0

/-- Fresh-uuid stream for `World.update` (never consumed in the
scenarios below). -/
def fids0 : ℕ → ℕ := fun _ => 5000

/-- Respawn-position stream for `World.update` (never consumed). -/
noncomputable def sps0 : ℕ → ℝ × ℝ := fun _ => (0, 0)

/-- The perception vector `agent0` assembles: 11 rays that see nothing
(the only nearby object is the agent itself, which `_sense` skips),
then `1 - energy` and `1 - health`. -/
noncomputable def sense0 : List ℝ :=
  ((List.range 11).map (fun _ => [(0 : ℝ), 0, 0, 0])).flatten ++ [1 - 0, 1 - 1 / 20000]

/-- The brain of `agent0` after its one think step. -/
noncomputable def brain0after : NeuroBlob :=
  { brainZero with state := brainZero.stepOnce^[1] (brainZero.writeInputs brainZero.state sense0) }

/-- `agent0` after one full tick: age 1, unchanged position and heading,
energy 0 and health 0 (the passive cost exhausts the remaining health
through the energy-deficit rule and regeneration has no energy to
draw). -/
noncomputable def agent0after : Agent :=
  { agent0 with
      age := 1, angle := 0, inputs := sense0, outputs := [0, 0, 0],
      brain := brain0after, energy := 0, health := 0 }

/-- A world holding nothing at all (used to instantiate the frame
theorem about `World.update` at a concrete world). -/
noncomputable def wEmpty : World := { width := 1, height := 1, cats := [], grid := fun _ => [] }

/-- The spatial-index counterexample object: a food circle sitting
exactly on the right world border `x = width = 800`. -/
noncomputable def o8 : Obj := circFood 1 800 300 3

/-- A bare 800 x 600 world holding `o8` in its category dict with an
empty grid, before registration. -/
noncomputable def w8 : World :=
  { width := 800, height := 600, cats := [("food", [o8])], grid := fun _ => [] }

/-- `w8` after `_update_object_in_grid(o8, None)`: `o8` is registered in
its cells (column 7). -/
noncomputable def w8r : World := w8.updateObjectInGrid o8 none

/-- The spatial-index witness object, well inside the world. -/
noncomputable def o8w : Obj := circFood 2 10 10 3

/-- A bare 800 x 600 world holding `o8w`, before registration. -/
noncomputable def w8w : World :=
  { width := 800, height := 600, cats := [("food", [o8w])], grid := fun _ => [] }

/-- Ray-circle counterexample: a circle of radius 2 centred one unit
behind the origin (the ray origin is inside it). -/
noncomputable def circBehind : Obj := circFood 3 (-1) 0 2

/-- Ray-circle witness: a circle of radius 2 centred 5 units directly
ahead. -/
noncomputable def circAhead5 : Obj := circFood 4 5 0 2

/-- Degenerate-geometry counterexample: a circle of radius 3 exactly at
the ray origin. -/
noncomputable def circOnTop : Obj := circFood 5 0 0 3

/-- A persisted weight matrix of the correct 2 x 4 shape for
`brainTiny`. -/
noncomputable def dataW7 : List (List ℝ) := [[0, 0, 0, 0], [0, 0, 0, 0]]

/-- A persisted state vector of length 7 — not the length 4 the live
topology of `brainTiny` has. -/
noncomputable def dataS7 : List ℝ := [9, 0, 0, 0, 5, 0, 0]

/-- The spatial grid of `w0` in closed form: the four walls registered in
their border cells and the agent in its four centre cells. -/
def grid0fun : ℤ × ℤ → List ℕ :=
  World.gridAdd (World.gridAdd (World.gridAdd (World.gridAdd (World.gridAdd
    (fun _ => []) 1000 [(0, 0), (0, 1), (0, 2), (0, 3), (0, 4), (0, 5)])
    1001 [(7, 0), (7, 1), (7, 2), (7, 3), (7, 4), (7, 5)])
    1002 [(0, 0), (1, 0), (2, 0), (3, 0), (4, 0), (5, 0), (6, 0), (7, 0)])
    1003 [(0, 5), (1, 5), (2, 5), (3, 5), (4, 5), (5, 5), (6, 5), (7, 5)])
    7 [(3, 2), (3, 3), (4, 2), (4, 3)]

/-- `w0` after the acting agent is written back (the Python object is
mutated in place; the model replaces it in the category dict). -/
noncomputable def w0r : World :=
  { w0 with cats := World.replaceObj w0.cats (Obj.agentObj agent0after) }

/-- `w0r` after the collision pass of its one agent: the self-collision
is a no-op on the stored objects, and the agent is re-registered in the
grid from its (unchanged) cells. -/
noncomputable def wColCats : List (String × List Obj) :=
  World.replaceObj (World.replaceObj w0r.cats (Obj.agentObj agent0after))
    (Obj.agentObj agent0after)

noncomputable def wCol : World :=
  ({ w0r with cats := wColCats } : World).updateObjectInGrid
    (Obj.agentObj agent0after) (some [(3, 2), (3, 3), (4, 2), (4, 3)])

/-- The world `World.update` produces from `w0`: the dead agent (health
0) is still stored in the agent category. -/
noncomputable def wFinal : World :=
  wCol.updateObjectInGrid (Obj.agentObj agent0after) (some [(3, 2), (3, 3), (4, 2), (4, 3)])

/-! ## Helper lemmas -/

theorem npClip_mem (x lo hi : ℝ) (h : lo ≤ hi) : lo ≤ npClip x lo hi ∧ npClip x lo hi ≤ hi :=
  ⟨le_min (le_max_right _ _) h, min_le_right _ _⟩

theorem pymod_zero_left (b : ℝ) : pymod 0 b = 0 := by
  simp [pymod]

theorem pymod_self_lt (a b : ℝ) (h0 : 0 ≤ a) (h1 : a < b) : pymod a b = a := by
  have hb : 0 < b := lt_of_le_of_lt h0 h1
  have hq0 : 0 ≤ a / b := div_nonneg h0 hb.le
  have hq1 : a / b < 1 := (div_lt_one hb).mpr h1
  have : ⌊a / b⌋ = 0 := Int.floor_eq_zero_iff.mpr ⟨hq0, hq1⟩
  simp [pymod, this]

theorem pymod_pi_two_pi : pymod Real.pi (2 * Real.pi) = Real.pi :=
  pymod_self_lt _ _ Real.pi_pos.le (by nlinarith [Real.pi_pos])

theorem stepOnce_low (nb : NeuroBlob) (s : ℕ → ℝ) (i : ℕ) (h : i < nb.hidden_start) :
    nb.stepOnce s i = s i := by
  unfold NeuroBlob.stepOnce
  exact if_neg (fun hc => absurd hc.1 (not_le.mpr h))

theorem stepOnce_high (nb : NeuroBlob) (s : ℕ → ℝ) (i : ℕ) (h1 : nb.hidden_start ≤ i)
    (h2 : i < nb.n_neurons) : nb.stepOnce s i = Real.tanh (nb.dot s (i - nb.hidden_start)) := by
  unfold NeuroBlob.stepOnce
  exact if_pos ⟨h1, h2⟩

theorem iterate_stepOnce_low (nb : NeuroBlob) (s : ℕ → ℝ) (k i : ℕ) (h : i < nb.hidden_start) :
    (nb.stepOnce^[k]) s i = s i := by
  induction k with
  | zero => rfl
  | succ n ih =>
    rw [Function.iterate_succ_apply', stepOnce_low nb _ i h, ih]

theorem getD_map_range (n : ℕ) (f : ℕ → ℝ) (j : ℕ) (h : j < n) :
    ((List.range n).map f).getD j 0 = f j := by
  rw [List.getD_eq_getElem?_getD, List.getElem?_map, List.getElem?_range h]
  rfl

theorem radius_circle (o : Obj) (R : ℝ) (h : o.shape = .circle R) : o.radius = R := by
  unfold Obj.radius
  rw [h]

theorem rectEdgeStepChk_eq (rc ro m1 m2 dist edge : ℝ) :
    Agent.rectEdgeStepChk rc ro m1 m2 dist edge =
      Except.ok (Agent.rectEdgeStep rc ro m1 m2 dist edge) := by
  unfold Agent.rectEdgeStepChk Agent.rectEdgeStep
  by_cases hg : edge * rc > 0
  · have hrc : rc ≠ 0 := by
      intro h0
      rw [h0, mul_zero] at hg
      exact lt_irrefl 0 hg
    have hq : cdiv edge rc = Except.ok (edge / rc) := by
      rw [cdiv, if_neg hrc]
    rw [if_pos hg, if_pos hg, hq]
    show (if (m1 - edge / rc * ro) * (m2 - edge / rc * ro) ≤ 0 then
        Except.ok (min (edge / rc) dist)
      else Except.ok dist) =
      Except.ok (if (m1 - edge / rc * ro) * (m2 - edge / rc * ro) ≤ 0 then
        min (edge / rc) dist else dist)
    split_ifs <;> rfl
  · rw [if_neg hg, if_neg hg]

theorem rectEdgeStep_zero (ro m1 m2 dist edge : ℝ) :
    Agent.rectEdgeStep 0 ro m1 m2 dist edge = dist := by
  unfold Agent.rectEdgeStep
  rw [mul_zero, if_neg (lt_irrefl 0)]

theorem intersectRayCircleChk_eq (a : Agent) (rdx rdy : ℝ) (o : Obj) :
    a.intersectRayCircleChk rdx rdy o = Except.ok (a.intersectRayCircle rdx rdy o) := by
  unfold Agent.intersectRayCircleChk Agent.intersectRayCircle
  by_cases h1 : (o.x - a.x) * (o.x - a.x) + (o.y - a.y) * (o.y - a.y) >
      (Agent.VISION_DISTANCE + o.radius) ^ 2
  · simp only [if_pos h1]
  · simp only [if_neg h1]
    by_cases h2 : (o.x - a.x) * rdx + (o.y - a.y) * rdy < 0
    · simp only [if_pos h2]
    · simp only [if_neg h2]
      by_cases h3 : (o.x - a.x) * (o.x - a.x) + (o.y - a.y) * (o.y - a.y) -
          ((o.x - a.x) * rdx + (o.y - a.y) * rdy) * ((o.x - a.x) * rdx + (o.y - a.y) * rdy) >
          o.radius * o.radius
      · simp only [if_pos h3]
      · simp only [if_neg h3]
        have hnn : ¬ (o.radius * o.radius -
            ((o.x - a.x) * (o.x - a.x) + (o.y - a.y) * (o.y - a.y) -
              ((o.x - a.x) * rdx + (o.y - a.y) * rdy) *
                ((o.x - a.x) * rdx + (o.y - a.y) * rdy)) < 0) := by
          push_neg at h3 ⊢
          linarith
        rw [show csqrt (o.radius * o.radius -
            ((o.x - a.x) * (o.x - a.x) + (o.y - a.y) * (o.y - a.y) -
              ((o.x - a.x) * rdx + (o.y - a.y) * rdy) *
                ((o.x - a.x) * rdx + (o.y - a.y) * rdy))) =
            Except.ok (Real.sqrt (o.radius * o.radius -
              ((o.x - a.x) * (o.x - a.x) + (o.y - a.y) * (o.y - a.y) -
                ((o.x - a.x) * rdx + (o.y - a.y) * rdy) *
                  ((o.x - a.x) * rdx + (o.y - a.y) * rdy)))) from by rw [csqrt, if_neg hnn]]
        rfl

theorem applyEnergyCost_bounds (a : Agent) (cost : ℝ) (hc : 0 ≤ cost)
    (he0 : 0 ≤ a.energy) (he1 : a.energy ≤ 1) (hh0 : 0 ≤ a.health) (hh1 : a.health ≤ 1) :
    0 ≤ (a.applyEnergyCost cost).energy ∧ (a.applyEnergyCost cost).energy ≤ 1 ∧
      0 ≤ (a.applyEnergyCost cost).health ∧ (a.applyEnergyCost cost).health ≤ 1 := by
  unfold Agent.applyEnergyCost
  split_ifs with h
  · refine ⟨?_, ?_, ?_, ?_⟩ <;> dsimp only <;> linarith
  · refine ⟨?_, ?_, ?_, ?_⟩ <;> dsimp only
    · exact le_refl 0
    · norm_num
    · exact le_max_left 0 _
    · refine max_le (by norm_num) ?_
      push_neg at h
      linarith

theorem restoreHealth_bounds (a : Agent)
    (he0 : 0 ≤ a.energy) (he1 : a.energy ≤ 1) (hh0 : 0 ≤ a.health) (hh1 : a.health ≤ 1) :
    0 ≤ a.restoreHealth.energy ∧ a.restoreHealth.energy ≤ 1 ∧
      0 ≤ a.restoreHealth.health ∧ a.restoreHealth.health ≤ 1 := by
  unfold Agent.restoreHealth
  split_ifs with h
  · simp only []
    have hr : (0 : ℝ) ≤ Agent.REGEN_COST := by
      norm_num [Agent.REGEN_COST, Agent.PASSIVE_COST]
    have h0 : 0 ≤ min Agent.REGEN_COST (min (1 - a.health) a.energy) :=
      le_min hr (le_min (by linarith) he0)
    have h1 : min Agent.REGEN_COST (min (1 - a.health) a.energy) ≤ 1 - a.health :=
      le_trans (min_le_right _ _) (min_le_left _ _)
    have h2 : min Agent.REGEN_COST (min (1 - a.health) a.energy) ≤ a.energy :=
      le_trans (min_le_right _ _) (min_le_right _ _)
    refine ⟨?_, ?_, ?_, ?_⟩ <;> dsimp only <;> linarith
  · exact ⟨he0, he1, hh0, hh1⟩

theorem processConsumption_error (a : Agent) (o : Obj) :
    a.processConsumption o = Except.error "AttributeError: ENERGY_COST" := by
  unfold Agent.processConsumption
  match o with
  | .agentObj b => rfl
  | .plainObj p =>
    cases hp : p.kind <;> simp [PlainKind.classAttr]

theorem consumeLoop_ok (a : Agent) (l : List Obj) (p : Agent × Option Obj)
    (h : a.consumeLoop l = Except.ok p) : p = (a, none) := by
  induction l with
  | nil =>
    unfold Agent.consumeLoop at h
    exact (Except.ok.inj h).symm
  | cons obj rest ih =>
    unfold Agent.consumeLoop at h
    simp only [] at h
    split_ifs at h with hskip hfood
    · exact ih h
    · rw [processConsumption_error] at h
      exact absurd h (by simp [Except.map])
    · exact (Except.ok.inj h).symm

theorem consumeIfPossible_ok (a : Agent) (ns : List Obj) (p : Agent × Option Obj)
    (h : a.consumeIfPossible ns = Except.ok p) :
    p = (a.applyEnergyCost Agent.BITING_COST, none) :=
  consumeLoop_ok _ _ _ h

/-- On a successful (non-raising) `_act`, the interaction outcome is
`none` (a successful consumption is impossible: `_process_consumption`
always raises), and the resulting agent is the moved agent with the
energy-cost applications and the health regeneration applied. -/
theorem act_ok_decompose (a : Agent) (ns : List Obj) (p : Agent × Option Obj)
    (h : a.act ns = Except.ok p) :
    p.2 = none ∧
      ∃ (b : Agent) (c : ℝ), 0 ≤ c ∧ b.energy = a.energy ∧ b.health = a.health ∧
        (p.1 = (b.applyEnergyCost c).restoreHealth ∨
          p.1 = ((b.applyEnergyCost Agent.BITING_COST).applyEnergyCost c).restoreHealth) := by
  unfold Agent.act at h
  split at h
  case _ d v e heq =>
    simp only [] at h
    have hcost : (0 : ℝ) ≤ Agent.PASSIVE_COST + Agent.MOVEMENT_COST_FACTOR * v ^ 2 := by
      have hv : (0 : ℝ) ≤ v ^ 2 := sq_nonneg v
      norm_num [Agent.PASSIVE_COST, Agent.MOVEMENT_COST_FACTOR]
      nlinarith
    set aM := (({ a with age := a.age + 1 } : Agent).rotate (d * 0.1)).move v with haM
    have hME : aM.energy = a.energy := rfl
    have hMH : aM.health = a.health := rfl
    by_cases heat : e > Agent.CONSUME_LEVEL
    · rw [if_pos heat] at h
      cases hcons : aM.consumeIfPossible ns with
      | error msg =>
        rw [hcons] at h
        exact Except.noConfusion h
      | ok pr =>
        rw [hcons] at h
        have hpr := consumeIfPossible_ok _ _ _ hcons
        have h2 : Except.ok ((pr.1.applyEnergyCost
            (Agent.PASSIVE_COST + Agent.MOVEMENT_COST_FACTOR * v ^ 2)).restoreHealth, pr.2) =
            Except.ok p := h
        have h3 := Except.ok.inj h2
        rw [hpr] at h3
        refine ⟨?_, aM, Agent.PASSIVE_COST + Agent.MOVEMENT_COST_FACTOR * v ^ 2,
          hcost, hME, hMH, Or.inr ?_⟩
        · rw [← h3]
        · rw [← h3]
    · rw [if_neg heat] at h
      have h2 : Except.ok ((aM.applyEnergyCost
          (Agent.PASSIVE_COST + Agent.MOVEMENT_COST_FACTOR * v ^ 2)).restoreHealth,
          (none : Option Obj)) = Except.ok p := h
      have h3 := Except.ok.inj h2
      refine ⟨?_, aM, Agent.PASSIVE_COST + Agent.MOVEMENT_COST_FACTOR * v ^ 2,
        hcost, hME, hMH, Or.inl ?_⟩
      · rw [← h3]
      · rw [← h3]
  case _ =>
    exact absurd h (by simp)

theorem pyint_of_nonneg (x : ℝ) (z : ℤ) (h0 : 0 ≤ x) (h1 : (z : ℝ) ≤ x) (h2 : x < z + 1) :
    pyint x = z := by
  unfold pyint
  rw [if_pos h0]
  exact Int.floor_eq_iff.mpr ⟨h1, by exact_mod_cast h2⟩

theorem pyint_of_neg (x : ℝ) (z : ℤ) (h0 : ¬ 0 ≤ x) (h1 : (z : ℝ) - 1 < x) (h2 : x ≤ z) :
    pyint x = z := by
  unfold pyint
  rw [if_neg h0]
  exact Int.ceil_eq_iff.mpr ⟨by exact_mod_cast h1, h2⟩

theorem pyint_mono (a b : ℝ) (h : a ≤ b) : pyint a ≤ pyint b := by
  unfold pyint
  split_ifs with ha hb hb2
  · exact Int.floor_le_floor h
  · exact absurd (le_trans ha h) hb
  · calc ⌈a⌉ ≤ 0 := Int.ceil_le.mpr (by push_neg at ha; exact_mod_cast ha.le)
      _ ≤ ⌊b⌋ := Int.le_floor.mpr (by exact_mod_cast hb2)
  · exact Int.ceil_le_ceil h

theorem pyint_nonneg (x : ℝ) (h : 0 ≤ x) : 0 ≤ pyint x := by
  unfold pyint
  rw [if_pos h]
  exact Int.le_floor.mpr (by simpa using h)

theorem pyint_lt (x : ℝ) (z : ℤ) (h0 : 0 ≤ x) (h : x < z) : pyint x < z := by
  unfold pyint
  rw [if_pos h0]
  exact Int.floor_lt.mpr h

theorem mem_intRange (lo hi z : ℤ) (h1 : lo ≤ z) (h2 : z ≤ hi) : z ∈ intRange lo hi := by
  unfold intRange
  have hmem : (z - lo).toNat ∈ List.range (hi + 1 - lo).toNat := List.mem_range.mpr (by omega)
  have h3 := List.mem_map_of_mem (fun n : ℕ => lo + Int.ofNat n) hmem
  have he : lo + Int.ofNat (z - lo).toNat = z := by
    simp only [Int.ofNat_eq_coe]
    omega
  simp only [] at h3
  rw [he] at h3
  exact h3

theorem setInsertId_mem_self (i : ℕ) (l : List ℕ) : i ∈ setInsertId i l := by
  unfold setInsertId
  split_ifs with h
  · exact h
  · simp

theorem setInsertId_mem_of_mem (i j : ℕ) (l : List ℕ) (h : j ∈ l) : j ∈ setInsertId i l := by
  unfold setInsertId
  split_ifs with hm
  · exact h
  · simp [h]

theorem mem_foldl_setInsertId (ids : List ℕ) (acc : List ℕ) (j : ℕ)
    (h : j ∈ acc ∨ j ∈ ids) : j ∈ ids.foldl (fun ac i => setInsertId i ac) acc := by
  induction ids generalizing acc with
  | nil => simpa using h
  | cons i rest ih =>
    rw [List.foldl_cons]
    rcases h with h | h
    · exact ih _ (Or.inl (setInsertId_mem_of_mem i j acc h))
    · rcases List.mem_cons.mp h with h | h
      · exact ih _ (Or.inl (h ▸ setInsertId_mem_self i acc))
      · exact ih _ (Or.inr h)

theorem mem_cells_fold (cells : List (ℤ × ℤ)) (g : ℤ × ℤ → List ℕ) (acc : List ℕ) (j : ℕ)
    (h : j ∈ acc ∨ ∃ c ∈ cells, j ∈ g c) :
    j ∈ cells.foldl (fun ac cell => (g cell).foldl (fun a i => setInsertId i a) ac) acc := by
  induction cells generalizing acc with
  | nil =>
    rcases h with h | ⟨c, hc, _⟩
    · simpa using h
    · exact absurd hc (by simp)
  | cons c rest ih =>
    rw [List.foldl_cons]
    rcases h with h | ⟨c2, hc2, hj⟩
    · exact ih _ (Or.inl (mem_foldl_setInsertId _ _ _ (Or.inl h)))
    · rcases List.mem_cons.mp hc2 with he | he
      · exact ih _ (Or.inl (mem_foldl_setInsertId _ _ _ (Or.inr (he ▸ hj))))
      · exact ih _ (Or.inr ⟨c2, he, hj⟩)

theorem getCat_subset_allObjects (cats : List (String × List Obj)) (c : String) (q : Obj)
    (h : q ∈ World.getCat cats c) : q ∈ (cats.map Prod.snd).flatten := by
  unfold World.getCat at h
  cases hf : cats.find? (fun p => p.1 = c) with
  | none => rw [hf] at h; exact absurd h (by simp)
  | some p =>
    rw [hf] at h
    have hp : p ∈ cats := List.mem_of_find?_eq_some hf
    rw [List.mem_flatten]
    exact ⟨p.2, List.mem_map.mpr ⟨p, hp, rfl⟩, h⟩

theorem getCat_of_no_key (cats : List (String × List Obj)) (c : String)
    (h : ∀ p ∈ cats, p.1 ≠ c) : World.getCat cats c = [] := by
  unfold World.getCat
  cases hf : cats.find? (fun p => p.1 = c) with
  | none => rfl
  | some p =>
    have hp : p ∈ cats := List.mem_of_find?_eq_some hf
    have := List.find?_some hf
    simp only [decide_eq_true_eq] at this
    exact absurd this (h p hp)

theorem addToCat_keys (cats : List (String × List Obj)) (c : String) (o : Obj)
    (p : String × List Obj) (h : p ∈ World.addToCat cats c o) :
    p.1 = c ∨ ∃ q ∈ cats, p.1 = q.1 := by
  unfold World.addToCat at h
  split_ifs at h with hany
  · rcases List.mem_map.mp h with ⟨q, hq, he⟩
    have hpq : p.1 = q.1 := by
      rw [← he]
      split_ifs <;> rfl
    exact Or.inr ⟨q, hq, hpq⟩
  · rcases List.mem_append.mp h with h2 | h2
    · exact Or.inr ⟨p, h2, rfl⟩
    · left
      have : p = (c, [o]) := by simpa using h2
      rw [this]

theorem addToCat_no_new_key (cats : List (String × List Obj)) (c k : String) (o : Obj)
    (h : ∀ p ∈ cats, p.1 ≠ k) (hc : c ≠ k) :
    ∀ p ∈ World.addToCat cats c o, p.1 ≠ k := by
  intro p hp
  rcases addToCat_keys cats c o p hp with h1 | ⟨q, hq, h1⟩
  · rw [h1]; exact hc
  · rw [h1]; exact h q hq

theorem category_ne_poison (o : Obj) : o.category ≠ "poison" := by
  cases o with
  | agentObj a => simp [Obj.category]
  | plainObj p =>
    cases hk : p.kind <;> simp [Obj.category, PlainKind.category, hk]

theorem getCat_cons (p : String × List Obj) (rest : List (String × List Obj)) (c : String) :
    World.getCat (p :: rest) c = if p.1 = c then p.2 else World.getCat rest c := by
  unfold World.getCat
  by_cases h : p.1 = c
  · rw [List.find?_cons_of_pos _ (by simp [h]), if_pos h]
  · rw [List.find?_cons_of_neg _ (by simp [h]), if_neg h]

theorem mem_getCat_mapAdd (cats : List (String × List Obj)) (c : String) (o : Obj)
    (hany : cats.any (fun p => p.1 = c) = true)
    (hfresh : ∀ q ∈ World.getCat cats c, q.id ≠ o.id) :
    o ∈ World.getCat (cats.map (fun p =>
      if p.1 = c then
        (p.1, if p.2.any (fun q => q.id = o.id) then p.2 else p.2 ++ [o])
      else p)) c := by
  induction cats with
  | nil => simp at hany
  | cons p rest ih =>
    by_cases hp : p.1 = c
    · rw [List.map_cons, if_pos hp, getCat_cons, if_pos hp]
      have hgc : World.getCat (p :: rest) c = p.2 := by rw [getCat_cons, if_pos hp]
      have hno : p.2.any (fun q => q.id = o.id) = false := by
        rw [List.any_eq_false]
        intro q hq
        simp only [decide_eq_true_eq]
        exact hfresh q (by rw [hgc]; exact hq)
      rw [hno]
      simp
    · rw [List.map_cons, if_neg hp, getCat_cons, if_neg hp]
      have hany2 : rest.any (fun p => p.1 = c) = true := by
        simp only [List.any_cons] at hany
        rcases Bool.or_eq_true_iff.mp hany with h1 | h1
        · exact absurd (of_decide_eq_true h1) hp
        · exact h1
      have hfresh2 : ∀ q ∈ World.getCat rest c, q.id ≠ o.id := by
        intro q hq
        exact hfresh q (by rw [getCat_cons, if_neg hp]; exact hq)
      exact ih hany2 hfresh2

theorem getCat_append_of_no_key (cats tail : List (String × List Obj)) (c : String)
    (h : cats.any (fun p => p.1 = c) = false) :
    World.getCat (cats ++ tail) c = World.getCat tail c := by
  induction cats with
  | nil => simp
  | cons p rest ih =>
    have hp : ¬ p.1 = c := by
      intro he
      simp [he] at h
    have h2 : rest.any (fun p => p.1 = c) = false := by
      simp only [List.any_cons, Bool.or_eq_false_iff] at h
      exact h.2
    rw [List.cons_append, getCat_cons, if_neg hp]
    exact ih h2

theorem mem_getCat_addToCat (cats : List (String × List Obj)) (c : String) (o : Obj)
    (hfresh : ∀ q ∈ World.getCat cats c, q.id ≠ o.id) :
    o ∈ World.getCat (World.addToCat cats c o) c := by
  unfold World.addToCat
  split_ifs with hany
  · exact mem_getCat_mapAdd cats c o hany hfresh
  · rw [getCat_append_of_no_key cats _ c (Bool.eq_false_iff.mpr hany), getCat_cons, if_pos rfl]
    simp

theorem reachable_no_poison_key (w : World) (h : WorldReachable w) :
    ∀ p ∈ w.cats, p.1 ≠ "poison" := by
  induction h with
  | init width height =>
    show ∀ p ∈ World.addToCat (World.addToCat (World.addToCat (World.addToCat
        ([] : List (String × List Obj))
        (Obj.plainObj (World.wallL width height)).category (Obj.plainObj (World.wallL width height)))
        (Obj.plainObj (World.wallR width height)).category (Obj.plainObj (World.wallR width height)))
        (Obj.plainObj (World.wallT width height)).category (Obj.plainObj (World.wallT width height)))
        (Obj.plainObj (World.wallB width height)).category (Obj.plainObj (World.wallB width height)),
        p.1 ≠ "poison"
    refine addToCat_no_new_key _ _ _ _ ?_ (category_ne_poison _)
    refine addToCat_no_new_key _ _ _ _ ?_ (category_ne_poison _)
    refine addToCat_no_new_key _ _ _ _ ?_ (category_ne_poison _)
    refine addToCat_no_new_key _ _ _ _ ?_ (category_ne_poison _)
    intro p hp
    exact absurd hp (by simp)
  | addPlain w k pos i hw ih =>
    exact addToCat_no_new_key _ _ _ _ ih (category_ne_poison _)
  | addAgent w a hw ih =>
    exact addToCat_no_new_key _ _ _ _ ih (category_ne_poison _)

theorem applyEnergyCost_frame (a : Agent) (c : ℝ) :
    (a.applyEnergyCost c).x = a.x ∧ (a.applyEnergyCost c).y = a.y ∧
      (a.applyEnergyCost c).angle = a.angle ∧ (a.applyEnergyCost c).radius = a.radius := by
  unfold Agent.applyEnergyCost
  split_ifs <;> exact ⟨rfl, rfl, rfl, rfl⟩

theorem cells_agent400 (w : World) (hw : w.width = 800) (hh : w.height = 600) (o : Obj)
    (hx : o.x = 400) (hy : o.y = 300) (hwd : o.width = 12) (hht : o.height = 12) :
    w.getObjectCells o = [(3, 2), (3, 3), (4, 2), (4, 3)] := by
  unfold World.getObjectCells
  simp only []
  rw [hw, hh, hx, hy, hwd, hht]
  rw [pyint_of_nonneg ((400 - 12 / 2) / 800 * (World.GRID_COLS : ℝ)) 3
      (by norm_num [World.GRID_COLS]) (by norm_num [World.GRID_COLS])
      (by norm_num [World.GRID_COLS]),
    pyint_of_nonneg ((400 + 12 / 2) / 800 * (World.GRID_COLS : ℝ)) 4
      (by norm_num [World.GRID_COLS]) (by norm_num [World.GRID_COLS])
      (by norm_num [World.GRID_COLS]),
    pyint_of_nonneg ((300 - 12 / 2) / 600 * (World.GRID_ROWS : ℝ)) 2
      (by norm_num [World.GRID_ROWS]) (by norm_num [World.GRID_ROWS])
      (by norm_num [World.GRID_ROWS]),
    pyint_of_nonneg ((300 + 12 / 2) / 600 * (World.GRID_ROWS : ℝ)) 3
      (by norm_num [World.GRID_ROWS]) (by norm_num [World.GRID_ROWS])
      (by norm_num [World.GRID_ROWS])]
  decide

theorem cells_wallL (w : World) (hw : w.width = 800) (hh : w.height = 600) :
    w.getObjectCells (Obj.plainObj (World.wallL 800 600)) =
      [(0, 0), (0, 1), (0, 2), (0, 3), (0, 4), (0, 5)] := by
  unfold World.getObjectCells
  simp only []
  rw [hw, hh,
    show (Obj.plainObj (World.wallL 800 600)).x = 0 by norm_num [World.wallL, Obj.x],
    show (Obj.plainObj (World.wallL 800 600)).y = 300 by norm_num [World.wallL, Obj.y],
    show (Obj.plainObj (World.wallL 800 600)).width = 2 by
      norm_num [World.wallL, Obj.width, Obj.shape],
    show (Obj.plainObj (World.wallL 800 600)).height = 600 by
      norm_num [World.wallL, Obj.height, Obj.shape]]
  rw [pyint_of_neg (((0 : ℝ) - 2 / 2) / 800 * (World.GRID_COLS : ℝ)) 0
      (by norm_num [World.GRID_COLS]) (by norm_num [World.GRID_COLS])
      (by norm_num [World.GRID_COLS]),
    pyint_of_nonneg (((0 : ℝ) + 2 / 2) / 800 * (World.GRID_COLS : ℝ)) 0
      (by norm_num [World.GRID_COLS]) (by norm_num [World.GRID_COLS])
      (by norm_num [World.GRID_COLS]),
    pyint_of_nonneg (((300 : ℝ) - 600 / 2) / 600 * (World.GRID_ROWS : ℝ)) 0
      (by norm_num [World.GRID_ROWS]) (by norm_num [World.GRID_ROWS])
      (by norm_num [World.GRID_ROWS]),
    pyint_of_nonneg (((300 : ℝ) + 600 / 2) / 600 * (World.GRID_ROWS : ℝ)) 6
      (by norm_num [World.GRID_ROWS]) (by norm_num [World.GRID_ROWS])
      (by norm_num [World.GRID_ROWS])]
  decide

theorem cells_wallR (w : World) (hw : w.width = 800) (hh : w.height = 600) :
    w.getObjectCells (Obj.plainObj (World.wallR 800 600)) =
      [(7, 0), (7, 1), (7, 2), (7, 3), (7, 4), (7, 5)] := by
  unfold World.getObjectCells
  simp only []
  rw [hw, hh,
    show (Obj.plainObj (World.wallR 800 600)).x = 800 by norm_num [World.wallR, Obj.x],
    show (Obj.plainObj (World.wallR 800 600)).y = 300 by norm_num [World.wallR, Obj.y],
    show (Obj.plainObj (World.wallR 800 600)).width = 2 by
      norm_num [World.wallR, Obj.width, Obj.shape],
    show (Obj.plainObj (World.wallR 800 600)).height = 600 by
      norm_num [World.wallR, Obj.height, Obj.shape]]
  rw [pyint_of_nonneg (((800 : ℝ) - 2 / 2) / 800 * (World.GRID_COLS : ℝ)) 7
      (by norm_num [World.GRID_COLS]) (by norm_num [World.GRID_COLS])
      (by norm_num [World.GRID_COLS]),
    pyint_of_nonneg (((800 : ℝ) + 2 / 2) / 800 * (World.GRID_COLS : ℝ)) 8
      (by norm_num [World.GRID_COLS]) (by norm_num [World.GRID_COLS])
      (by norm_num [World.GRID_COLS]),
    pyint_of_nonneg (((300 : ℝ) - 600 / 2) / 600 * (World.GRID_ROWS : ℝ)) 0
      (by norm_num [World.GRID_ROWS]) (by norm_num [World.GRID_ROWS])
      (by norm_num [World.GRID_ROWS]),
    pyint_of_nonneg (((300 : ℝ) + 600 / 2) / 600 * (World.GRID_ROWS : ℝ)) 6
      (by norm_num [World.GRID_ROWS]) (by norm_num [World.GRID_ROWS])
      (by norm_num [World.GRID_ROWS])]
  decide

theorem cells_wallT (w : World) (hw : w.width = 800) (hh : w.height = 600) :
    w.getObjectCells (Obj.plainObj (World.wallT 800 600)) =
      [(0, 0), (1, 0), (2, 0), (3, 0), (4, 0), (5, 0), (6, 0), (7, 0)] := by
  unfold World.getObjectCells
  simp only []
  rw [hw, hh,
    show (Obj.plainObj (World.wallT 800 600)).x = 400 by norm_num [World.wallT, Obj.x],
    show (Obj.plainObj (World.wallT 800 600)).y = 0 by norm_num [World.wallT, Obj.y],
    show (Obj.plainObj (World.wallT 800 600)).width = 800 by
      norm_num [World.wallT, Obj.width, Obj.shape],
    show (Obj.plainObj (World.wallT 800 600)).height = 2 by
      norm_num [World.wallT, Obj.height, Obj.shape]]
  rw [pyint_of_nonneg (((400 : ℝ) - 800 / 2) / 800 * (World.GRID_COLS : ℝ)) 0
      (by norm_num [World.GRID_COLS]) (by norm_num [World.GRID_COLS])
      (by norm_num [World.GRID_COLS]),
    pyint_of_nonneg (((400 : ℝ) + 800 / 2) / 800 * (World.GRID_COLS : ℝ)) 8
      (by norm_num [World.GRID_COLS]) (by norm_num [World.GRID_COLS])
      (by norm_num [World.GRID_COLS]),
    pyint_of_neg (((0 : ℝ) - 2 / 2) / 600 * (World.GRID_ROWS : ℝ)) 0
      (by norm_num [World.GRID_ROWS]) (by norm_num [World.GRID_ROWS])
      (by norm_num [World.GRID_ROWS]),
    pyint_of_nonneg (((0 : ℝ) + 2 / 2) / 600 * (World.GRID_ROWS : ℝ)) 0
      (by norm_num [World.GRID_ROWS]) (by norm_num [World.GRID_ROWS])
      (by norm_num [World.GRID_ROWS])]
  decide

theorem cells_wallB (w : World) (hw : w.width = 800) (hh : w.height = 600) :
    w.getObjectCells (Obj.plainObj (World.wallB 800 600)) =
      [(0, 5), (1, 5), (2, 5), (3, 5), (4, 5), (5, 5), (6, 5), (7, 5)] := by
  unfold World.getObjectCells
  simp only []
  rw [hw, hh,
    show (Obj.plainObj (World.wallB 800 600)).x = 400 by norm_num [World.wallB, Obj.x],
    show (Obj.plainObj (World.wallB 800 600)).y = 600 by norm_num [World.wallB, Obj.y],
    show (Obj.plainObj (World.wallB 800 600)).width = 800 by
      norm_num [World.wallB, Obj.width, Obj.shape],
    show (Obj.plainObj (World.wallB 800 600)).height = 2 by
      norm_num [World.wallB, Obj.height, Obj.shape]]
  rw [pyint_of_nonneg (((400 : ℝ) - 800 / 2) / 800 * (World.GRID_COLS : ℝ)) 0
      (by norm_num [World.GRID_COLS]) (by norm_num [World.GRID_COLS])
      (by norm_num [World.GRID_COLS]),
    pyint_of_nonneg (((400 : ℝ) + 800 / 2) / 800 * (World.GRID_COLS : ℝ)) 8
      (by norm_num [World.GRID_COLS]) (by norm_num [World.GRID_COLS])
      (by norm_num [World.GRID_COLS]),
    pyint_of_nonneg (((600 : ℝ) - 2 / 2) / 600 * (World.GRID_ROWS : ℝ)) 5
      (by norm_num [World.GRID_ROWS]) (by norm_num [World.GRID_ROWS])
      (by norm_num [World.GRID_ROWS]),
    pyint_of_nonneg (((600 : ℝ) + 2 / 2) / 600 * (World.GRID_ROWS : ℝ)) 6
      (by norm_num [World.GRID_ROWS]) (by norm_num [World.GRID_ROWS])
      (by norm_num [World.GRID_ROWS])]
  decide

theorem w0_grid : w0.grid = grid0fun := by
  unfold w0 World.addAgentObj World.init World.addCommon
  dsimp only
  rw [cells_wallB _ rfl rfl, cells_wallT _ rfl rfl, cells_wallR _ rfl rfl,
    cells_wallL _ rfl rfl]
  rw [cells_agent400 _ rfl rfl (Obj.agentObj agent0) rfl rfl
    (by norm_num [Obj.width, Obj.shape]) (by norm_num [Obj.height, Obj.shape])]
  rfl

theorem w0_near : w0.getObjectsInArea 400 300 100 = [Obj.agentObj agent0] := by
  unfold World.getObjectsInArea
  simp only []
  rw [show w0.width = 800 from rfl, show w0.height = 600 from rfl]
  rw [show max (0 : ℝ) ((400 - 100) / 800) = (400 - 100) / 800 from max_eq_right (by norm_num),
    show min (1 : ℝ) ((400 + 100) / 800) = (400 + 100) / 800 from min_eq_right (by norm_num),
    show max (0 : ℝ) ((300 - 100) / 600) = (300 - 100) / 600 from max_eq_right (by norm_num),
    show min (1 : ℝ) ((300 + 100) / 600) = (300 + 100) / 600 from min_eq_right (by norm_num)]
  rw [pyint_of_nonneg (((400 : ℝ) - 100) / 800 * (World.GRID_COLS : ℝ)) 3
      (by norm_num [World.GRID_COLS]) (by norm_num [World.GRID_COLS])
      (by norm_num [World.GRID_COLS]),
    pyint_of_nonneg (((400 : ℝ) + 100) / 800 * (World.GRID_COLS : ℝ)) 5
      (by norm_num [World.GRID_COLS]) (by norm_num [World.GRID_COLS])
      (by norm_num [World.GRID_COLS]),
    pyint_of_nonneg (((300 : ℝ) - 100) / 600 * (World.GRID_ROWS : ℝ)) 2
      (by norm_num [World.GRID_ROWS]) (by norm_num [World.GRID_ROWS])
      (by norm_num [World.GRID_ROWS]),
    pyint_of_nonneg (((300 : ℝ) + 100) / 600 * (World.GRID_ROWS : ℝ)) 4
      (by norm_num [World.GRID_ROWS]) (by norm_num [World.GRID_ROWS])
      (by norm_num [World.GRID_ROWS])]
  rw [w0_grid]
  rw [show ((intRange 3 5).flatMap (fun c => (intRange 2 4).map (fun r => (c, r)))).foldl
      (fun acc cell => (grid0fun cell).foldl (fun ac i => setInsertId i ac) acc) [] =
      [7] from by decide]
  rw [show List.filterMap w0.findObj [7] = [Obj.agentObj agent0] from by
    simp [List.filterMap_cons, show w0.findObj 7 = some (Obj.agentObj agent0) from rfl]]
  have hcond : ((Obj.agentObj agent0).x - 400) ^ 2 + ((Obj.agentObj agent0).y - 300) ^ 2 ≤
      ((100 : ℝ) + (Obj.agentObj agent0).radius) ^ 2 := by
    norm_num [Obj.x, Obj.y, Obj.radius, Obj.shape, agent0]
  simp [hcond]

theorem w0r_close : w0r.getObjectsInArea 400 300 6 = [Obj.agentObj agent0after] := by
  unfold World.getObjectsInArea
  simp only []
  rw [show w0r.width = 800 from rfl, show w0r.height = 600 from rfl]
  rw [show max (0 : ℝ) ((400 - 6) / 800) = (400 - 6) / 800 from max_eq_right (by norm_num),
    show min (1 : ℝ) ((400 + 6) / 800) = (400 + 6) / 800 from min_eq_right (by norm_num),
    show max (0 : ℝ) ((300 - 6) / 600) = (300 - 6) / 600 from max_eq_right (by norm_num),
    show min (1 : ℝ) ((300 + 6) / 600) = (300 + 6) / 600 from min_eq_right (by norm_num)]
  rw [pyint_of_nonneg (((400 : ℝ) - 6) / 800 * (World.GRID_COLS : ℝ)) 3
      (by norm_num [World.GRID_COLS]) (by norm_num [World.GRID_COLS])
      (by norm_num [World.GRID_COLS]),
    pyint_of_nonneg (((400 : ℝ) + 6) / 800 * (World.GRID_COLS : ℝ)) 4
      (by norm_num [World.GRID_COLS]) (by norm_num [World.GRID_COLS])
      (by norm_num [World.GRID_COLS]),
    pyint_of_nonneg (((300 : ℝ) - 6) / 600 * (World.GRID_ROWS : ℝ)) 2
      (by norm_num [World.GRID_ROWS]) (by norm_num [World.GRID_ROWS])
      (by norm_num [World.GRID_ROWS]),
    pyint_of_nonneg (((300 : ℝ) + 6) / 600 * (World.GRID_ROWS : ℝ)) 3
      (by norm_num [World.GRID_ROWS]) (by norm_num [World.GRID_ROWS])
      (by norm_num [World.GRID_ROWS])]
  rw [show w0r.grid = w0.grid from rfl, w0_grid]
  rw [show ((intRange 3 4).flatMap (fun c => (intRange 2 3).map (fun r => (c, r)))).foldl
      (fun acc cell => (grid0fun cell).foldl (fun ac i => setInsertId i ac) acc) [] =
      [7] from by decide]
  rw [show List.filterMap w0r.findObj [7] = [Obj.agentObj agent0after] from by
    simp [List.filterMap_cons, show w0r.findObj 7 = some (Obj.agentObj agent0after) from rfl]]
  have hcond : ((Obj.agentObj agent0after).x - 400) ^ 2 +
      ((Obj.agentObj agent0after).y - 300) ^ 2 ≤
      ((6 : ℝ) + (Obj.agentObj agent0after).radius) ^ 2 := by
    norm_num [Obj.x, Obj.y, Obj.radius, Obj.shape, agent0after, agent0]
  simp [hcond]

theorem collide_self : (Obj.agentObj agent0after).collide (Obj.agentObj agent0after) =
    (Obj.agentObj agent0after, Obj.agentObj agent0after) := by
  unfold Obj.collide
  rw [show (Obj.agentObj agent0after).isCircleB = true from rfl]
  simp only []
  have hd : Real.sqrt (((Obj.agentObj agent0after).x - (Obj.agentObj agent0after).x) ^ 2 +
      ((Obj.agentObj agent0after).y - (Obj.agentObj agent0after).y) ^ 2) = 0 := by
    rw [sub_self, sub_self]
    norm_num
  rw [if_neg (fun hcon => hcon.2 hd)]

theorem senseRay_self (i : ℕ) :
    agent0.senseRay i [Obj.agentObj agent0] = [0, 0, 0, 0] := by
  unfold Agent.senseRay
  simp only []
  rw [List.foldl_cons, List.foldl_nil]
  have hskip : ∀ rdx rdy : ℝ,
      agent0.senseStep rdx rdy ((none : Option ℝ), (0 : ℝ), ((0 : ℝ), (0 : ℝ), (0 : ℝ)))
        (Obj.agentObj agent0) = (none, 0, (0, 0, 0)) := by
    intro rdx rdy
    unfold Agent.senseStep
    exact if_pos rfl
  rw [hskip]

theorem agent0_sense : agent0.senseInputs [Obj.agentObj agent0] = sense0 := by
  unfold Agent.senseInputs sense0
  have h1 : (List.range Agent.VISION_RAYS).map (fun i => agent0.senseRay i [Obj.agentObj agent0]) =
      (List.range 11).map (fun _ => [(0 : ℝ), 0, 0, 0]) := by
    refine List.map_congr_left ?_
    intro i _
    exact senseRay_self i
  rw [h1]
  rfl

theorem brainZero_step (ins : List ℝ) (hlen : ins.length = 46) :
    brainZero.step ins 1 = Except.ok ([0, 0, 0],
      { brainZero with state := brainZero.stepOnce^[1] (brainZero.writeInputs brainZero.state ins) }) := by
  unfold NeuroBlob.step
  rw [if_neg (by rw [hlen]; norm_num [brainZero])]
  simp only []
  refine congrArg Except.ok ?_
  have hout : ∀ j : ℕ, j < 3 →
      brainZero.stepOnce^[1] (brainZero.writeInputs brainZero.state ins)
        (brainZero.output_start + j) = 0 := by
    intro j hj
    rw [Function.iterate_one]
    rw [stepOnce_high brainZero _ _
      (by norm_num [brainZero, NeuroBlob.output_start, NeuroBlob.hidden_start,
        NeuroBlob.input_start]; omega)
      (by norm_num [brainZero, NeuroBlob.output_start, NeuroBlob.hidden_start,
        NeuroBlob.input_start, NeuroBlob.n_neurons]; omega)]
    have hdot : brainZero.dot (brainZero.writeInputs brainZero.state ins)
        (brainZero.output_start + j - brainZero.hidden_start) = 0 := by
      unfold NeuroBlob.dot
      refine Finset.sum_eq_zero ?_
      intro k _
      show brainZero.W _ k * _ = 0
      rw [show ∀ i k : ℕ, brainZero.W i k = 0 from fun _ _ => rfl]
      ring
    rw [hdot, Real.tanh_zero]
  have hrange : List.range brainZero.n_output = [0, 1, 2] := rfl
  rw [hrange, List.map_cons, List.map_cons, List.map_cons, List.map_nil]
  rw [hout 0 (by norm_num), hout 1 (by norm_num), hout 2 (by norm_num)]

theorem sense0_length : sense0.length = 46 := rfl

theorem agent_eq_of_fields (a b : Agent) (h1 : a.id = b.id) (h2 : a.x = b.x) (h3 : a.y = b.y)
    (h4 : a.angle = b.angle) (h5 : a.energy = b.energy) (h6 : a.health = b.health)
    (h7 : a.age = b.age) (h8 : a.score = b.score) (h9 : a.brain = b.brain)
    (h10 : a.inputs = b.inputs) (h11 : a.outputs = b.outputs) : a = b := by
  cases a
  cases b
  simp_all

/-- The metabolic tail of one idle Act tick (`d_theta = 0`,
`velocity = 0`) for an agent with no energy and health `1/20000`: the
position is unchanged, the heading stays 0, the passive cost drains the
remaining health to 0, and regeneration has nothing to draw. -/
theorem act_tail_eval (a : Agent) (hE : a.energy = 0) (hH : a.health = 1 / 20000)
    (hA : a.angle = 0) :
    (((a.rotate (0 * 0.1)).move 0).applyEnergyCost
        (Agent.PASSIVE_COST + Agent.MOVEMENT_COST_FACTOR * (0 : ℝ) ^ 2)).restoreHealth =
      { a with angle := 0, energy := 0, health := 0 } := by
  have hC : Agent.PASSIVE_COST + Agent.MOVEMENT_COST_FACTOR * (0 : ℝ) ^ 2 = 1 / 10000 := by
    norm_num [Agent.PASSIVE_COST, Agent.MOVEMENT_COST_FACTOR]
  rw [hC]
  unfold Agent.rotate Agent.move
  dsimp only
  rw [hA]
  rw [show (0 : ℝ) + 0 * 0.1 = 0 by norm_num]
  rw [pymod_zero_left]
  rw [show Real.cos 0 * 0 = 0 from mul_zero _, show Real.sin 0 * 0 = 0 from mul_zero _]
  rw [add_zero, add_zero]
  unfold Agent.applyEnergyCost
  dsimp only
  rw [hE, hH]
  rw [if_neg (by norm_num)]
  rw [show max (0 : ℝ) (1 / 20000 - (1 / 10000 - 0)) = 0 from max_eq_left (by norm_num)]
  unfold Agent.restoreHealth
  dsimp only
  rw [if_pos (by norm_num : (0 : ℝ) < 1)]
  rw [show min (1 - (0 : ℝ)) 0 = 0 from min_eq_right (by norm_num)]
  rw [show min Agent.REGEN_COST (0 : ℝ) = 0 from
    min_eq_right (by norm_num [Agent.REGEN_COST, Agent.PASSIVE_COST])]
  rw [add_zero, sub_zero]

theorem agent0_updateFull :
    agent0.updateFull [Obj.agentObj agent0] 1 = Except.ok (agent0after, none) := by
  unfold Agent.updateFull
  simp only []
  rw [agent0_sense]
  rw [show ({ agent0 with inputs := sense0 } : Agent).brain.step
      ({ agent0 with inputs := sense0 } : Agent).inputs 1 =
      Except.ok ([0, 0, 0], brain0after) from brainZero_step sense0 sense0_length]
  show ({ agent0 with inputs := sense0, outputs := [(0 : ℝ), 0, 0], brain := brain0after } :
    Agent).act [Obj.agentObj agent0] = Except.ok (agent0after, none)
  unfold Agent.act
  rw [show ({ agent0 with inputs := sense0, outputs := [(0 : ℝ), 0, 0], brain := brain0after } :
    Agent).outputs = [(0 : ℝ), 0, 0] from rfl]
  simp only []
  rw [if_neg (by norm_num [Agent.CONSUME_LEVEL])]
  show Except.ok ((((({ id := agent0.id, x := agent0.x, y := agent0.y, angle := agent0.angle,
                        energy := agent0.energy, health := agent0.health, age := agent0.age + 1,
                        score := agent0.score, brain := brain0after, inputs := sense0,
                        outputs := [(0 : ℝ), 0, 0] } : Agent).rotate (0 * 0.1)).move
      0).applyEnergyCost
      (Agent.PASSIVE_COST + Agent.MOVEMENT_COST_FACTOR * (0 : ℝ) ^ 2)).restoreHealth,
      (none : Option Obj)) = Except.ok (agent0after, none)
  rw [act_tail_eval _ rfl rfl rfl]
  rfl

theorem except_bind_ok {a b : Type} (x : a) (f : a -> Except String b) :
    (Except.ok x >>= f) = f x := rfl

theorem w0r_collidePhase : World.collidePhase w0r 7 = wCol := by
  unfold World.collidePhase
  rw [show w0r.findObj 7 = some (Obj.agentObj agent0after) from rfl]
  simp only []
  rw [show (Obj.agentObj agent0after).x = (400 : ℝ) from rfl,
    show (Obj.agentObj agent0after).y = (300 : ℝ) from rfl,
    show (Obj.agentObj agent0after).radius = (6 : ℝ) from rfl]
  rw [w0r_close]
  rw [List.foldl_cons, List.foldl_nil]
  rw [show w0r.findObj (Obj.agentObj agent0after).id = some (Obj.agentObj agent0after) from rfl]
  rw [show w0r.findObj 7 = some (Obj.agentObj agent0after) from rfl]
  simp only []
  rw [cells_agent400 w0r rfl rfl (Obj.agentObj agent0after) rfl rfl
    (by norm_num [Obj.width, Obj.shape]) (by norm_num [Obj.height, Obj.shape])]
  rw [collide_self]
  rfl

theorem w0_step : World.stepAgentById w0 7 5000 ((0 : ℝ), 0) = Except.ok wFinal := by
  unfold World.stepAgentById
  rw [show w0.findObj 7 = some (Obj.agentObj agent0) from rfl]
  simp only []
  rw [show agent0.x = (400 : ℝ) from rfl, show agent0.y = (300 : ℝ) from rfl,
    show agent0.grid_radius = (100 : ℝ) by
      norm_num [Agent.grid_radius, Agent.VISION_DISTANCE]]
  rw [w0_near]
  rw [cells_agent400 w0 rfl rfl (Obj.agentObj agent0) rfl rfl
    (by norm_num [Obj.width, Obj.shape]) (by norm_num [Obj.height, Obj.shape])]
  rw [agent0_updateFull]
  rw [except_bind_ok]
  dsimp only
  rw [show ({ w0 with cats := World.replaceObj w0.cats (Obj.agentObj agent0after) } : World) =
    w0r from rfl]
  rw [w0r_collidePhase]
  rw [show wCol.findObj 7 = some (Obj.agentObj agent0after) from rfl]
  rfl

theorem w0_update : World.update w0 fids0 sps0 = Except.ok wFinal := by
  unfold World.update
  simp only []
  rw [show (w0.getObjects "agent").map Obj.id = [7] from rfl]
  rw [show ([7] : List ℕ).enum = [((0 : ℕ), (7 : ℕ))] from rfl]
  rw [List.foldlM_cons]
  simp only [List.foldlM_nil]
  rw [show fids0 0 = 5000 from rfl, show sps0 0 = ((0 : ℝ), (0 : ℝ)) from rfl]
  rw [w0_step]
  rfl

theorem find_keyed_map (cats : List (String × List Obj))
    (f : String × List Obj → String × List Obj) (k : String)
    (hk : ∀ p, (f p).1 = p.1) :
    (cats.map f).find? (fun p => p.1 = k) = (cats.find? (fun p => p.1 = k)).map f := by
  induction cats with
  | nil => rfl
  | cons p rest ih =>
    rw [List.map_cons]
    by_cases hp : p.1 = k
    · rw [List.find?_cons_of_pos _ (by simp [hk, hp]), List.find?_cons_of_pos _ (by simp [hp])]
      rfl
    · rw [List.find?_cons_of_neg _ (by simp [hk, hp]), List.find?_cons_of_neg _ (by simp [hp]),
        ih]

theorem getCat_map_keyed (cats : List (String × List Obj))
    (f : String × List Obj → String × List Obj) (k : String)
    (hk : ∀ p, (f p).1 = p.1) :
    World.getCat (cats.map f) k =
      (match cats.find? (fun p => p.1 = k) with
        | some p => (f p).2
        | none => []) := by
  unfold World.getCat
  rw [find_keyed_map cats f k hk]
  cases cats.find? (fun p => p.1 = k) <;> rfl

theorem getCat_replaceObj_id (cats : List (String × List Obj)) (o : Obj) (c : String) :
    (World.getCat (World.replaceObj cats o) c).map Obj.id =
      (World.getCat cats c).map Obj.id := by
  unfold World.replaceObj
  rw [getCat_map_keyed cats
    (fun p => (p.1, p.2.map (fun q => if q.id = o.id then o else q))) c (fun p => rfl)]
  cases hf : cats.find? (fun p => p.1 = c) with
  | none =>
    unfold World.getCat
    rw [hf]
  | some p =>
    unfold World.getCat
    rw [hf]
    simp only [List.map_map]
    refine List.map_congr_left ?_
    intro q _
    show Obj.id (if q.id = o.id then o else q) = q.id
    by_cases h : q.id = o.id
    · rw [if_pos h, h]
    · rw [if_neg h]

theorem getObjects_updateGrid (w : World) (o : Obj) (oc : Option (List (ℤ × ℤ)))
    (c : String) : (w.updateObjectInGrid o oc).getObjects c = w.getObjects c := rfl

theorem collidePhase_ids (w : World) (aid : ℕ) (c : String) :
    ((World.collidePhase w aid).getObjects c).map Obj.id = (w.getObjects c).map Obj.id := by
  unfold World.collidePhase
  cases hf : w.findObj aid with
  | none => rfl
  | some self0 =>
    simp only []
    generalize w.getObjectsInArea self0.x self0.y self0.radius = closest
    suffices H : ∀ (l : List Obj) (wAcc : World),
        ((l.foldl (fun wAcc close =>
          match wAcc.findObj aid, wAcc.findObj close.id with
          | some selfNow, some closeNow =>
            let oldCellsClose := wAcc.getObjectCells closeNow
            let pr := selfNow.collide closeNow
            let w1 : World :=
              { wAcc with cats := World.replaceObj (World.replaceObj wAcc.cats pr.1) pr.2 }
            w1.updateObjectInGrid pr.2 (some oldCellsClose)
          | _, _ => wAcc) wAcc).getObjects c).map Obj.id = (wAcc.getObjects c).map Obj.id by
      exact H closest w
    intro l
    induction l with
    | nil => intro wAcc; rfl
    | cons cl rest ih =>
      intro wAcc
      rw [List.foldl_cons, ih]
      cases hs : wAcc.findObj aid with
      | none => rfl
      | some selfNow =>
        cases hc : wAcc.findObj cl.id with
        | none => rfl
        | some closeNow =>
          simp only []
          rw [getObjects_updateGrid]
          show (World.getCat (World.replaceObj (World.replaceObj wAcc.cats
            (selfNow.collide closeNow).1) (selfNow.collide closeNow).2) c).map Obj.id =
            (wAcc.getObjects c).map Obj.id
          rw [getCat_replaceObj_id, getCat_replaceObj_id]
          rfl

/-- On a successful (non-raising) `Agent.update`, the interaction
outcome is always `none` (consumption always raises). -/
theorem updateFull_ok_none (a : Agent) (ns : List Obj) (ts : ℕ) (p : Agent × Option Obj)
    (h : a.updateFull ns ts = Except.ok p) : p.2 = none := by
  unfold Agent.updateFull at h
  simp only [] at h
  cases hstep : ({ a with inputs := a.senseInputs ns } : Agent).brain.step
      ({ a with inputs := a.senseInputs ns } : Agent).inputs ts with
  | error msg =>
    rw [hstep] at h
    exact Except.noConfusion h
  | ok pr =>
    rw [hstep] at h
    exact (act_ok_decompose _ ns p h).1

theorem stepAgentById_ids (w : World) (aid fid : ℕ) (sp : ℝ × ℝ) (w2 : World)
    (h : World.stepAgentById w aid fid sp = Except.ok w2) :
    (w2.getObjects "agent").map Obj.id = (w.getObjects "agent").map Obj.id := by
  unfold World.stepAgentById at h
  cases hf : w.findObj aid with
  | none =>
    rw [hf] at h
    simp only [] at h
    rw [← Except.ok.inj h]
  | some obj =>
    cases obj with
    | plainObj p =>
      rw [hf] at h
      simp only [] at h
      rw [← Except.ok.inj h]
    | agentObj a =>
      rw [hf] at h
      simp only [] at h
      cases hupd : a.updateFull (w.getObjectsInArea a.x a.y a.grid_radius) 1 with
      | error msg =>
        rw [hupd] at h
        exact Except.noConfusion h
      | ok pr =>
        rw [hupd] at h
        rw [except_bind_ok] at h
        have hio : pr.2 = none := updateFull_ok_none _ _ _ _ hupd
        rw [hio] at h
        simp only [] at h
        rw [← Except.ok.inj h]
        cases hf3 : (World.collidePhase
            { w with cats := World.replaceObj w.cats (Obj.agentObj pr.1) } aid).findObj aid with
        | some oNow =>
          rw [getObjects_updateGrid, collidePhase_ids]
          show (World.getCat (World.replaceObj w.cats (Obj.agentObj pr.1)) "agent").map Obj.id =
            (w.getObjects "agent").map Obj.id
          rw [getCat_replaceObj_id]
          rfl
        | none =>
          rw [collidePhase_ids]
          show (World.getCat (World.replaceObj w.cats (Obj.agentObj pr.1)) "agent").map Obj.id =
            (w.getObjects "agent").map Obj.id
          rw [getCat_replaceObj_id]
          rfl

/-! ## Claim theorems -/

/-- C1.  For every agent and every tick (`Agent.update` =
sense-think-act), if the tick completes without raising, the agent
energy and health lie in `[0, 1]` afterwards: sensing and thinking do
not touch them, and each metabolic operation that does (the energy-cost
application with its health-deficit rule, the health regeneration, the
biting cost) keeps them clamped in range. -/
theorem tick_preserves_energy_health_bounds :
    ∀ (a : Agent) (ns : List Obj) (ts : ℕ) (a2 : Agent) (io : Option Obj),
      0 ≤ a.energy → a.energy ≤ 1 → 0 ≤ a.health → a.health ≤ 1 →
      a.updateFull ns ts = Except.ok (a2, io) →
      0 ≤ a2.energy ∧ a2.energy ≤ 1 ∧ 0 ≤ a2.health ∧ a2.health ≤ 1 := by
  intro a ns ts a2 io he0 he1 hh0 hh1 h
  unfold Agent.updateFull at h
  simp only [] at h
  cases hstep : ({ a with inputs := a.senseInputs ns } : Agent).brain.step
      ({ a with inputs := a.senseInputs ns } : Agent).inputs ts with
  | error msg =>
    rw [hstep] at h
    exact Except.noConfusion h
  | ok pr =>
    rw [hstep] at h
    obtain ⟨-, b, c, hc, hbe, hbh, hor⟩ := act_ok_decompose _ ns (a2, io) h
    have hb0 : 0 ≤ b.energy := by rw [hbe]; exact he0
    have hb1 : b.energy ≤ 1 := by rw [hbe]; exact he1
    have hb2 : 0 ≤ b.health := by rw [hbh]; exact hh0
    have hb3 : b.health ≤ 1 := by rw [hbh]; exact hh1
    have hbit : (0 : ℝ) ≤ Agent.BITING_COST := by norm_num [Agent.BITING_COST]
    rcases hor with h1 | h1
    · have h2 : a2 = (b.applyEnergyCost c).restoreHealth := h1
      rw [h2]
      obtain ⟨q1, q2, q3, q4⟩ := applyEnergyCost_bounds b c hc hb0 hb1 hb2 hb3
      exact restoreHealth_bounds _ q1 q2 q3 q4
    · have h2 : a2 = ((b.applyEnergyCost Agent.BITING_COST).applyEnergyCost c).restoreHealth := h1
      rw [h2]
      obtain ⟨q1, q2, q3, q4⟩ := applyEnergyCost_bounds b Agent.BITING_COST hbit hb0 hb1 hb2 hb3
      obtain ⟨r1, r2, r3, r4⟩ := applyEnergyCost_bounds _ c hc q1 q2 q3 q4
      exact restoreHealth_bounds _ r1 r2 r3 r4

/-- C2 evaluation at the failing input.  An agent of radius 6 at the
origin with heading 0, full energy, eat intent 1 above the threshold,
and a food item of radius 3 exactly `6 + 3 = 9` units directly ahead:
one Act tick does not consume it — it raises `AttributeError`, because
`_process_consumption` reads `food.ENERGY_COST` while food.py defines
`ENERGY_EFFECT`.  (The distance gate `9 > (6 + 3) * 1.2` and the cone
gate `|0| > 60 degrees` both pass, so the food branch is reached.) -/
theorem act_consumption_raises_attribute_error :
    agentEater.act [foodAhead] = Except.error "AttributeError: ENERGY_COST" := by
  unfold Agent.act
  rw [show agentEater.outputs = [(0 : ℝ), 0, 1] from rfl]
  simp only []
  rw [if_pos (by norm_num [Agent.CONSUME_LEVEL])]
  set aM := (({ id := agentEater.id, x := agentEater.x, y := agentEater.y,
                angle := agentEater.angle, energy := agentEater.energy,
                health := agentEater.health, age := agentEater.age + 1,
                score := agentEater.score, brain := agentEater.brain,
                inputs := agentEater.inputs, outputs := [(0 : ℝ), 0, 1] } : Agent).rotate
    (0 * 0.1)).move 0 with haM
  have hx : aM.x = 0 := by
    simp [haM, Agent.move, Agent.rotate, agentEater, probeAgent]
  have hy : aM.y = 0 := by
    simp [haM, Agent.move, Agent.rotate, agentEater, probeAgent]
  have hang : aM.angle = 0 := by
    simp [haM, Agent.move, Agent.rotate, agentEater, probeAgent]
    exact pymod_zero_left _
  have hcons : aM.consumeIfPossible [foodAhead] =
      Except.error "AttributeError: ENERGY_COST" := by
    unfold Agent.consumeIfPossible
    set aB := aM.applyEnergyCost Agent.BITING_COST with haB
    obtain ⟨hbx, hby, hbang, hbrad⟩ := applyEnergyCost_frame aM Agent.BITING_COST
    have hbx2 : aB.x = 0 := by rw [haB, hbx, hx]
    have hby2 : aB.y = 0 := by rw [haB, hby, hy]
    have hbang2 : aB.angle = 0 := by rw [haB, hbang, hang]
    unfold Agent.consumeLoop
    simp only []
    have hfx : foodAhead.x = 9 := rfl
    have hfy : foodAhead.y = 0 := rfl
    have hfr : foodAhead.radius = 3 := rfl
    have hbr : aB.radius = 6 := rfl
    have hdist : Real.sqrt ((foodAhead.x - aB.x) ^ 2 + (foodAhead.y - aB.y) ^ 2) = 9 := by
      rw [hfx, hfy, hbx2, hby2]
      rw [show (9 - 0 : ℝ) ^ 2 + (0 - 0) ^ 2 = 9 ^ 2 by ring]
      exact Real.sqrt_sq (by norm_num)
    have hatan : atan2 (foodAhead.y - aB.y) (foodAhead.x - aB.x) = 0 := by
      rw [hfx, hfy, hbx2, hby2]
      unfold atan2
      rw [if_pos (by norm_num : (0 : ℝ) < 9 - 0)]
      norm_num
    have hangle : pymod (atan2 (foodAhead.y - aB.y) (foodAhead.x - aB.x) + Real.pi - aB.angle)
        (2 * Real.pi) - Real.pi = 0 := by
      rw [hatan, hbang2]
      rw [show (0 : ℝ) + Real.pi - 0 = Real.pi by ring, pymod_pi_two_pi]
      ring
    rw [hdist, hangle]
    rw [if_neg ?_]
    · rw [if_pos (show foodAhead.category = "food" from rfl)]
      rw [processConsumption_error]
      rfl
    · rw [hbr, hfr]
      push_neg
      constructor
      · norm_num
      · rw [abs_zero]
        unfold Agent.VISION_ANGLE
        positivity
  rw [hcons]
  rfl

/-- C8 counterexample.  The food circle `o8` sits exactly on the right
world border (`x = width = 800`).  After its grid registration is
reconciled it is registered in the column-7 cells, but a query at its
own position with radius 0 computes the out-of-range cell column 8
(`int(1.0 * 8) = 8` is not clamped to the 0..7 grid), collects no
candidates and returns the empty set — even though the object passes
the exact distance test at its own position.  The claimed round trip
fails. -/
theorem grid_query_misses_border_object :
    o8 ∉ w8r.getObjectsInArea 800 300 0 ∧ o8.id ∈ w8r.grid (7, 2) ∧ o8.id ∈ w8r.grid (7, 3) ∧
      ((800 : ℝ) - 800) ^ 2 + ((300 : ℝ) - 300) ^ 2 ≤ ((0 : ℝ) + o8.radius) ^ 2 := by
  have hcells : w8.getObjectCells o8 = [(7, 2), (7, 3)] := by
    unfold World.getObjectCells
    simp only []
    rw [pyint_of_nonneg ((o8.x - o8.width / 2) / w8.width * (World.GRID_COLS : ℝ)) 7
        (by norm_num [o8, circFood, Obj.x, Obj.width, Obj.shape, w8, World.GRID_COLS])
        (by norm_num [o8, circFood, Obj.x, Obj.width, Obj.shape, w8, World.GRID_COLS])
        (by norm_num [o8, circFood, Obj.x, Obj.width, Obj.shape, w8, World.GRID_COLS]),
      pyint_of_nonneg ((o8.x + o8.width / 2) / w8.width * (World.GRID_COLS : ℝ)) 8
        (by norm_num [o8, circFood, Obj.x, Obj.width, Obj.shape, w8, World.GRID_COLS])
        (by norm_num [o8, circFood, Obj.x, Obj.width, Obj.shape, w8, World.GRID_COLS])
        (by norm_num [o8, circFood, Obj.x, Obj.width, Obj.shape, w8, World.GRID_COLS]),
      pyint_of_nonneg ((o8.y - o8.height / 2) / w8.height * (World.GRID_ROWS : ℝ)) 2
        (by norm_num [o8, circFood, Obj.y, Obj.height, Obj.shape, w8, World.GRID_ROWS])
        (by norm_num [o8, circFood, Obj.y, Obj.height, Obj.shape, w8, World.GRID_ROWS])
        (by norm_num [o8, circFood, Obj.y, Obj.height, Obj.shape, w8, World.GRID_ROWS]),
      pyint_of_nonneg ((o8.y + o8.height / 2) / w8.height * (World.GRID_ROWS : ℝ)) 3
        (by norm_num [o8, circFood, Obj.y, Obj.height, Obj.shape, w8, World.GRID_ROWS])
        (by norm_num [o8, circFood, Obj.y, Obj.height, Obj.shape, w8, World.GRID_ROWS])
        (by norm_num [o8, circFood, Obj.y, Obj.height, Obj.shape, w8, World.GRID_ROWS])]
    decide
  have hgrid : ∀ c : ℤ × ℤ, w8r.grid c =
      if c ∈ [((7 : ℤ), (2 : ℤ)), ((7 : ℤ), (3 : ℤ))] then [o8.id] else [] := by
    intro c
    show (w8.updateObjectInGrid o8 none).grid c = _
    unfold World.updateObjectInGrid
    simp only [hcells, World.gridAdd]
    have hfil : ([((7 : ℤ), (2 : ℤ)), ((7 : ℤ), (3 : ℤ))]).filter
        (fun c => decide (match (none : Option (List (ℤ × ℤ))) with
          | some oc => c ∉ oc
          | none => True)) = [((7 : ℤ), (2 : ℤ)), ((7 : ℤ), (3 : ℤ))] := by
      simp
    rw [hfil]
    split_ifs with hm
    · show setInsertId o8.id (w8.grid c) = [o8.id]
      show setInsertId o8.id [] = [o8.id]
      simp [setInsertId]
    · rfl
  refine ⟨?_, ?_, ?_, ?_⟩
  · have hquery : w8r.getObjectsInArea 800 300 0 = [] := by
      unfold World.getObjectsInArea
      simp only []
      have hw : w8r.width = 800 := rfl
      have hh : w8r.height = 600 := rfl
      rw [hw, hh]
      rw [pyint_of_nonneg (max 0 ((800 - 0) / 800) * (World.GRID_COLS : ℝ)) 8
          (by norm_num [World.GRID_COLS]) (by norm_num [World.GRID_COLS])
          (by norm_num [World.GRID_COLS]),
        pyint_of_nonneg (min 1 ((800 + 0) / 800) * (World.GRID_COLS : ℝ)) 8
          (by norm_num [World.GRID_COLS]) (by norm_num [World.GRID_COLS])
          (by norm_num [World.GRID_COLS]),
        pyint_of_nonneg (max 0 ((300 - 0) / 600) * (World.GRID_ROWS : ℝ)) 3
          (by norm_num [World.GRID_ROWS]) (by norm_num [World.GRID_ROWS])
          (by norm_num [World.GRID_ROWS]),
        pyint_of_nonneg (min 1 ((300 + 0) / 600) * (World.GRID_ROWS : ℝ)) 3
          (by norm_num [World.GRID_ROWS]) (by norm_num [World.GRID_ROWS])
          (by norm_num [World.GRID_ROWS])]
      rw [show intRange 8 8 = [(8 : ℤ)] from by decide,
        show intRange 3 3 = [(3 : ℤ)] from by decide]
      simp only [List.flatMap_cons, List.flatMap_nil, List.map_cons, List.map_nil,
        List.append_nil, List.foldl_cons, List.foldl_nil]
      rw [hgrid (8, 3)]
      rw [if_neg (by decide)]
      simp
    rw [hquery]
    simp
  · rw [hgrid (7, 2)]
    simp
  · rw [hgrid (7, 3)]
    simp
  · have : o8.radius = 3 := rfl
    rw [this]
    norm_num

/-- C8 (amended).  For every object whose position lies inside the world
rectangle (`0 <= x < width`, `0 <= y < height`) and that the world can
resolve, after its grid registration is reconciled (from any valid old
registration, or a fresh one) a query at its own position with radius 0
returns a set containing the object; for an object exactly on or beyond
the right/bottom border the round trip can fail (see the
counterexample), because the query cell range is not clamped to the
grid.  Moreover every object a query returns passes the exact distance
test `squaredDistance(center, candidate) <= (radius + candidate.radius)^2`,
so a radius-0 query from a point where no object passes that test
returns the empty set. -/
theorem grid_relocate_query_roundtrip :
    ∀ (w : World) (o : Obj) (oldCells : Option (List (ℤ × ℤ))),
      0 < w.width → 0 < w.height →
      0 ≤ o.x → o.x < w.width → 0 ≤ o.y → o.y < w.height →
      0 ≤ o.width → 0 ≤ o.height →
      w.findObj o.id = some o →
      (∀ oc, oldCells = some oc → ∀ c ∈ oc, o.id ∈ w.grid c) →
      o ∈ (w.updateObjectInGrid o oldCells).getObjectsInArea o.x o.y 0 ∧
        (∀ (px py r : ℝ) (q : Obj), q ∈ w.getObjectsInArea px py r →
          (q.x - px) ^ 2 + (q.y - py) ^ 2 ≤ (r + q.radius) ^ 2) := by
  intro w o oldCells hw hh hx0 hx1 hy0 hy1 how hoh hfind hold
  constructor
  · -- the cell column and row of the query at the object position
    set cq := pyint (o.x / w.width * (World.GRID_COLS : ℝ)) with hcq
    set rq := pyint (o.y / w.height * (World.GRID_ROWS : ℝ)) with hrq
    have hcols : (0 : ℝ) ≤ (World.GRID_COLS : ℝ) := by norm_num [World.GRID_COLS]
    have hrows : (0 : ℝ) ≤ (World.GRID_ROWS : ℝ) := by norm_num [World.GRID_ROWS]
    have hcq0 : 0 ≤ cq := pyint_nonneg _ (mul_nonneg (div_nonneg hx0 hw.le) hcols)
    have hrq0 : 0 ≤ rq := pyint_nonneg _ (mul_nonneg (div_nonneg hy0 hh.le) hrows)
    have hcq7 : cq ≤ World.GRID_COLS - 1 := by
      have h8 : pyint (o.x / w.width * (World.GRID_COLS : ℝ)) < World.GRID_COLS := by
        apply pyint_lt _ _ (mul_nonneg (div_nonneg hx0 hw.le) hcols)
        have hlt : o.x / w.width < 1 := (div_lt_one hw).mpr hx1
        calc o.x / w.width * (World.GRID_COLS : ℝ) <
            1 * (World.GRID_COLS : ℝ) := by
              apply mul_lt_mul_of_pos_right hlt
              norm_num [World.GRID_COLS]
          _ = (World.GRID_COLS : ℝ) := one_mul _
      omega
    have hrq5 : rq ≤ World.GRID_ROWS - 1 := by
      have h6 : pyint (o.y / w.height * (World.GRID_ROWS : ℝ)) < World.GRID_ROWS := by
        apply pyint_lt _ _ (mul_nonneg (div_nonneg hy0 hh.le) hrows)
        have hlt : o.y / w.height < 1 := (div_lt_one hh).mpr hy1
        calc o.y / w.height * (World.GRID_ROWS : ℝ) <
            1 * (World.GRID_ROWS : ℝ) := by
              apply mul_lt_mul_of_pos_right hlt
              norm_num [World.GRID_ROWS]
          _ = (World.GRID_ROWS : ℝ) := one_mul _
      omega
    -- the object cell range brackets the query cell
    have hminc : max 0 (pyint ((o.x - o.width / 2) / w.width * (World.GRID_COLS : ℝ))) ≤ cq := by
      refine max_le hcq0 ?_
      rw [hcq]
      apply pyint_mono
      apply mul_le_mul_of_nonneg_right _ hcols
      exact (div_le_div_right hw).mpr (by linarith)
    have hmaxc : cq ≤ min (World.GRID_COLS - 1)
        (pyint ((o.x + o.width / 2) / w.width * (World.GRID_COLS : ℝ))) := by
      refine le_min hcq7 ?_
      rw [hcq]
      apply pyint_mono
      apply mul_le_mul_of_nonneg_right _ hcols
      exact (div_le_div_right hw).mpr (by linarith)
    have hminr : max 0 (pyint ((o.y - o.height / 2) / w.height * (World.GRID_ROWS : ℝ))) ≤ rq := by
      refine max_le hrq0 ?_
      rw [hrq]
      apply pyint_mono
      apply mul_le_mul_of_nonneg_right _ hrows
      exact (div_le_div_right hh).mpr (by linarith)
    have hmaxr : rq ≤ min (World.GRID_ROWS - 1)
        (pyint ((o.y + o.height / 2) / w.height * (World.GRID_ROWS : ℝ))) := by
      refine le_min hrq5 ?_
      rw [hrq]
      apply pyint_mono
      apply mul_le_mul_of_nonneg_right _ hrows
      exact (div_le_div_right hh).mpr (by linarith)
    have hcellmem : (cq, rq) ∈ w.getObjectCells o := by
      unfold World.getObjectCells
      simp only []
      refine List.mem_flatMap.mpr ⟨cq, mem_intRange _ _ _ hminc hmaxc, ?_⟩
      exact List.mem_map.mpr ⟨rq, mem_intRange _ _ _ hminr hmaxr, rfl⟩
    -- after the relocation the object id is registered in that cell
    have hgridmem : o.id ∈ (w.updateObjectInGrid o oldCells).grid (cq, rq) := by
      unfold World.updateObjectInGrid
      simp only [World.gridAdd]
      split_ifs with hmem
      · exact setInsertId_mem_self _ _
      · cases holdc : oldCells with
        | none =>
          exfalso
          subst holdc
          exact hmem (List.mem_filter.mpr ⟨hcellmem, by simp⟩)
        | some oc =>
          subst holdc
          have hinoc : (cq, rq) ∈ oc := by
            by_contra hno
            exact hmem (List.mem_filter.mpr ⟨hcellmem, by simp [hno]⟩)
          have hidg : o.id ∈ w.grid (cq, rq) := hold oc rfl _ hinoc
          unfold World.gridRemove
          simp only []
          split_ifs with hrem
          · exfalso
            have := (List.mem_filter.mp hrem).2
            simp only [decide_eq_true_eq] at this
            exact this hcellmem
          · exact hidg
    -- the query at the object position finds it
    unfold World.getObjectsInArea
    simp only []
    have hwW : (w.updateObjectInGrid o oldCells).width = w.width := rfl
    have hwH : (w.updateObjectInGrid o oldCells).height = w.height := rfl
    rw [hwW, hwH]
    have hle : max 0 ((o.x - 0) / w.width) = o.x / w.width := by
      rw [sub_zero]
      exact max_eq_right (div_nonneg hx0 hw.le)
    have hri : min 1 ((o.x + 0) / w.width) = o.x / w.width := by
      rw [add_zero]
      exact min_eq_right ((div_le_one hw).mpr hx1.le)
    have hbo : max 0 ((o.y - 0) / w.height) = o.y / w.height := by
      rw [sub_zero]
      exact max_eq_right (div_nonneg hy0 hh.le)
    have hto : min 1 ((o.y + 0) / w.height) = o.y / w.height := by
      rw [add_zero]
      exact min_eq_right ((div_le_one hh).mpr hy1.le)
    rw [hle, hri, hbo, hto]
    refine List.mem_filter.mpr ⟨?_, ?_⟩
    · refine List.mem_filterMap.mpr ⟨o.id, ?_, ?_⟩
      · apply mem_cells_fold
        refine Or.inr ⟨(cq, rq), ?_, hgridmem⟩
        refine List.mem_flatMap.mpr ⟨cq, mem_intRange _ _ _ le_rfl le_rfl, ?_⟩
        exact List.mem_map.mpr ⟨rq, mem_intRange _ _ _ le_rfl le_rfl, rfl⟩
      · exact hfind
    · simp only [decide_eq_true_eq]
      have h1 : (o.x - o.x) ^ 2 + (o.y - o.y) ^ 2 = 0 := by ring
      rw [h1]
      positivity
  · intro px py r q hq
    unfold World.getObjectsInArea at hq
    simp only [] at hq
    have h2 := (List.mem_filter.mp hq).2
    simpa using h2

/-- C8 witness: the round trip applied at a concrete in-bounds object —
the food circle `o8w` at `(10, 10)` in an 800 x 600 world, freshly
registered, is returned by the radius-0 query at its own position. -/
theorem grid_roundtrip_witness :
    o8w ∈ (w8w.updateObjectInGrid o8w none).getObjectsInArea o8w.x o8w.y 0 :=
  (grid_relocate_query_roundtrip w8w o8w none
    (by norm_num [w8w]) (by norm_num [w8w])
    (by norm_num [o8w, circFood, Obj.x]) (by norm_num [o8w, circFood, Obj.x, w8w])
    (by norm_num [o8w, circFood, Obj.y]) (by norm_num [o8w, circFood, Obj.y, w8w])
    (by norm_num [o8w, circFood, Obj.width, Obj.shape]) (by norm_num [o8w, circFood, Obj.height, Obj.shape])
    rfl (fun oc h => Option.noConfusion h)).1

/-- C5.  For every starting weight matrix and every choice of mutation
mask, mutation amounts, reward and learning rate, after a call to
`mutate` or to `learn` every entry of the weight matrix lies in
`[-1, 1]`: both updates end in the hard clip `np.clip(W, -1, 1)`. -/
theorem mutate_learn_weights_clipped :
    ∀ (nb : NeuroBlob) (mask : ℕ → ℕ → Bool) (mutation : ℕ → ℕ → ℝ) (reward lr : ℝ) (i j : ℕ),
      (-1 ≤ (nb.mutate mask mutation).W i j ∧ (nb.mutate mask mutation).W i j ≤ 1) ∧
      (-1 ≤ (nb.learn reward lr).W i j ∧ (nb.learn reward lr).W i j ≤ 1) := by
  intro nb mask mutation reward lr i j
  exact ⟨npClip_mem _ _ _ (by norm_num), npClip_mem _ _ _ (by norm_num)⟩

/-- C7 counterexample.  Loading a record whose weight matrix has the
correct shape but whose state vector has length 7 instead of the live
length 4 succeeds instead of failing: the state vector length is not
validated, and the overlong data is taken as-is (index 4 of the loaded
state holds the stored value 5). -/
theorem load_accepts_wrong_state_length :
    ∃ nb2, brainTiny.load dataW7 dataS7 = Except.ok nb2 ∧
      nb2.state 4 = 5 ∧ nb2.state 0 = 9 ∧ dataS7.length ≠ brainTiny.n_neurons := by
  refine ⟨_, rfl, ?_, ?_, ?_⟩ <;> simp [dataS7, brainTiny, NeuroBlob.n_neurons]

/-- C7 (amended).  `load` validates the two stored weight-matrix
dimensions (row count against `n_hidden + n_output`, first-row length
against `1 + n_input + n_hidden + n_output`) and fails with an error —
before any assignment to the live `W` or `state` — whenever either does
not match; the stored state vector, however, is not validated at all:
on a weight-shape match the load succeeds and installs whatever state
array the record holds, whatever its length. -/
theorem load_validates_only_weight_dims :
    ∀ (nb : NeuroBlob) (dW : List (List ℝ)) (dS : List ℝ),
      (dW.length ≠ nb.n_recurrent →
        nb.load dW dS = Except.error "ValueError: incompatible weights structure") ∧
      (∀ row, dW.head? = some row → row.length ≠ nb.n_neurons →
        nb.load dW dS = Except.error "ValueError: incompatible weights structure" ∨
          dW.length ≠ nb.n_recurrent) ∧
      (∀ row, dW.head? = some row → dW.length = nb.n_recurrent → row.length = nb.n_neurons →
        ∃ nb2, nb.load dW dS = Except.ok nb2 ∧
          nb2.n_input = nb.n_input ∧ nb2.n_hidden = nb.n_hidden ∧ nb2.n_output = nb.n_output ∧
          (∀ i j, nb2.W i j = (dW.getD i []).getD j 0) ∧
          (∀ i, nb2.state i = dS.getD i 0)) := by
  intro nb dW dS
  refine ⟨?_, ?_, ?_⟩
  · intro h
    simp [NeuroBlob.load, h]
  · intro row hrow hlen
    by_cases hl : dW.length = nb.n_recurrent
    · left
      simp [NeuroBlob.load, hl, hrow, hlen]
    · right
      exact hl
  · intro row hrow hl hlen
    refine ⟨{ nb with W := fun i j => (dW.getD i []).getD j 0, state := fun i => dS.getD i 0 },
      ?_, rfl, rfl, rfl, fun i j => rfl, fun i => rfl⟩
    simp [NeuroBlob.load, hl, hrow, hlen]

/-- C4.  `step`, for an input list of length `n_input`, copies the
inputs into the input-unit slice of the state vector, runs `steps_count`
iterations in which `buffer = W * state` is computed and only the
hidden-and-output slice is overwritten with `tanh(buffer)` (the bias
slot and the input slots are never rewritten inside the loop), and
returns the output-unit slice; for an input list of any other length it
fails with the shape-mismatch `ValueError` (raised before any state
write, so the state is unchanged). -/
theorem step_contract :
    ∀ (nb : NeuroBlob) (ins : List ℝ) (k : ℕ),
      (ins.length ≠ nb.n_input → nb.step ins k = Except.error "ValueError: input size mismatch") ∧
      (ins.length = nb.n_input →
        ∃ outs nb2, nb.step ins k = Except.ok (outs, nb2) ∧
          nb2.W = nb.W ∧
          nb2.state = nb.stepOnce^[k] (nb.writeInputs nb.state ins) ∧
          nb2.state nb.bias_idx = nb.state nb.bias_idx ∧
          (∀ i, i < nb.n_input → nb2.state (nb.input_start + i) = ins.getD i 0) ∧
          outs.length = nb.n_output ∧
          (∀ j, j < nb.n_output → outs.getD j 0 = nb2.state (nb.output_start + j))) ∧
      (∀ s i, nb.hidden_start ≤ i → i < nb.n_neurons →
        nb.stepOnce s i = Real.tanh (nb.dot s (i - nb.hidden_start))) ∧
      (∀ s i, i < nb.hidden_start → nb.stepOnce s i = s i) := by
  intro nb ins k
  refine ⟨?_, ?_, stepOnce_high nb, fun s i h => stepOnce_low nb s i h⟩
  · intro h
    simp [NeuroBlob.step, h]
  · intro h
    refine ⟨(List.range nb.n_output).map
        (fun j => (nb.stepOnce^[k] (nb.writeInputs nb.state ins)) (nb.output_start + j)),
      { nb with state := nb.stepOnce^[k] (nb.writeInputs nb.state ins) },
      ?_, rfl, rfl, ?_, ?_, ?_, ?_⟩
    · simp [NeuroBlob.step, h]
    · show (nb.stepOnce^[k] (nb.writeInputs nb.state ins)) nb.bias_idx = nb.state nb.bias_idx
      rw [iterate_stepOnce_low nb _ k nb.bias_idx ?_]
      · unfold NeuroBlob.writeInputs
        rw [if_neg]
        simp [NeuroBlob.bias_idx, NeuroBlob.input_start]
      · simp [NeuroBlob.bias_idx, NeuroBlob.hidden_start, NeuroBlob.input_start]
    · intro i hi
      show (nb.stepOnce^[k] (nb.writeInputs nb.state ins)) (nb.input_start + i) = ins.getD i 0
      rw [iterate_stepOnce_low nb _ k _ ?_]
      · unfold NeuroBlob.writeInputs
        rw [if_pos ?_]
        · simp [NeuroBlob.input_start]
        · constructor
          · simp [NeuroBlob.input_start]
          · simpa [NeuroBlob.input_start, NeuroBlob.hidden_start] using hi
      · simpa [NeuroBlob.hidden_start, NeuroBlob.input_start] using hi
    · simp
    · intro j hj
      exact getD_map_range _ _ _ hj

/-- C9 counterexample.  The claim states a degenerate configuration is
treated as no hit or as the clamped vision-range distance.  With a
zero-length ray direction and the agent exactly on top of a circle of
radius 3, the ray-circle function returns neither: it returns the valid
exit distance `some 3` (the radius), which is not `none` and not the
vision range 100. -/
theorem ray_circle_degenerate_returns_exit :
    Agent.intersectRayCircle (probeAgent 0 0 0) 0 0 circOnTop = some 3 ∧
      (3 : ℝ) ≠ Agent.VISION_DISTANCE := by
  constructor
  · unfold Agent.intersectRayCircle
    simp only []
    have hr : circOnTop.radius = 3 := rfl
    have hx : circOnTop.x = 0 := rfl
    have hy : circOnTop.y = 0 := rfl
    have hax : (probeAgent 0 0 0).x = 0 := rfl
    have hay : (probeAgent 0 0 0).y = 0 := rfl
    rw [hr, hx, hy, hax, hay]
    rw [if_neg (by norm_num [Agent.VISION_DISTANCE]), if_neg (by norm_num),
      if_neg (by norm_num)]
    norm_num
    rw [show Real.sqrt 9 = 3 from by
      rw [show (9 : ℝ) = 3 ^ 2 by norm_num]
      exact Real.sqrt_sq (by norm_num)]
    rw [if_neg (by norm_num)]
  · norm_num [Agent.VISION_DISTANCE]

/-- C9 (amended).  For every ray direction (including zero or near-zero
components) and every object position (including the agent exactly on
top of an object), the intersection functions are total: the checked
copies, in which every Python-partial operation (`math.sqrt`, float
division) is explicit, never raise and agree with the plain functions —
every executed division has a non-zero denominator (guarded by the
`edge * component > 0` sign tests) and every `sqrt` argument is
non-negative (guarded by the discriminant test).  A zero-length
direction yields the clamped vision-range distance from the rectangle
function, and the circle function only ever reports non-negative hit
distances (an origin inside a circle gets the exit distance). -/
theorem intersection_math_total :
    ∀ (a : Agent) (rdx rdy : ℝ) (o : Obj),
      a.intersectRayCircleChk rdx rdy o = Except.ok (a.intersectRayCircle rdx rdy o) ∧
      a.intersectRayRectangleChk rdx rdy o = Except.ok (a.intersectRayRectangle rdx rdy o) ∧
      a.intersectRayRectangle 0 0 o = Agent.VISION_DISTANCE ∧
      (∀ t, a.intersectRayCircle rdx rdy o = some t → 0 ≤ t) := by
  intro a rdx rdy o
  refine ⟨intersectRayCircleChk_eq a rdx rdy o, ?_, ?_, ?_⟩
  · unfold Agent.intersectRayRectangleChk Agent.intersectRayRectangle
    simp only [rectEdgeStepChk_eq]
    rfl
  · unfold Agent.intersectRayRectangle
    simp only []
    rw [rectEdgeStep_zero, rectEdgeStep_zero, rectEdgeStep_zero, rectEdgeStep_zero]
  · intro t ht
    unfold Agent.intersectRayCircle at ht
    simp only [] at ht
    split_ifs at ht with h1 h2 h3 h4 h5
    · rw [Option.some_inj] at ht
      exact ht ▸ h4
    · rw [Option.some_inj] at ht
      exact ht ▸ h5

/-- C6 counterexample.  A ray from the origin along `(1, 0)` against the
circle of radius 2 centred at `(-1, 0)`: the origin is inside the circle
(`t_m = 1 < 4`), the fast reject does not fire, the discriminant is
non-negative, the smaller root `t_ca - t_hc = -3` is negative and the
larger root `t_ca + t_hc = 1` is non-negative, so by the claim the call
should return the larger root `some 1`; the code returns `none`, because
it rejects as soon as `t_ca = -1 < 0`. -/
theorem ray_circle_center_behind_cex :
    Agent.intersectRayCircle (probeAgent 0 0 0) 1 0 circBehind = none ∧
      Agent.intersectRayCircle (probeAgent 0 0 0) 1 0 circBehind ≠ some 1 ∧
      ((-1 : ℝ) - Real.sqrt (2 * 2 - 0) < 0) ∧ (0 ≤ (-1 : ℝ) + Real.sqrt (2 * 2 - 0)) ∧
      ((1 : ℝ) ≤ (Agent.VISION_DISTANCE + 2) ^ 2) ∧ ((1 : ℝ) < 2 * 2) := by
  have hs : Real.sqrt ((2 : ℝ) * 2 - 0) = 2 := by
    rw [show (2 : ℝ) * 2 - 0 = 2 ^ 2 by ring]
    exact Real.sqrt_sq (by norm_num)
  have hnone : Agent.intersectRayCircle (probeAgent 0 0 0) 1 0 circBehind = none := by
    unfold Agent.intersectRayCircle
    have hr : circBehind.radius = 2 := rfl
    have hx : circBehind.x = -1 := rfl
    have hy : circBehind.y = 0 := rfl
    have hax : (probeAgent 0 0 0).x = 0 := rfl
    have hay : (probeAgent 0 0 0).y = 0 := rfl
    rw [hr, hx, hy, hax, hay]
    rw [if_neg (by norm_num [Agent.VISION_DISTANCE]), if_pos (by norm_num)]
  refine ⟨hnone, ?_, ?_, ?_, ?_, ?_⟩
  · rw [hnone]
    simp
  · rw [hs]
    norm_num
  · rw [hs]
    norm_num
  · norm_num [Agent.VISION_DISTANCE]
  · norm_num

/-- C6 (amended).  Ray-circle intersection returns the smaller
non-negative root `t_ca - t_hc` of the quadratic, or the larger root
`t_ca + t_hc` when the smaller is negative (ray origin inside the
circle) — the larger root is automatically non-negative there; there is
no hit exactly when the fast reject fires
(`t_m > (visionRange + radius)^2`), or the projection `t_ca` is negative
(circle centre behind the ray origin — an early reject the original
claim omits, which also discards an origin-inside-circle hit whose
larger root is non-negative), or the discriminant is negative; in
particular a ray aimed directly at a circle centre at distance
`D > R` (inside the fast-reject bound) returns `D - R`. -/
theorem ray_circle_root_characterisation :
    ∀ (a : Agent) (o : Obj) (rdx rdy R : ℝ), o.shape = .circle R →
      (let Lx := o.x - a.x
       let Ly := o.y - a.y
       let t_m := Lx * Lx + Ly * Ly
       let t_ca := Lx * rdx + Ly * rdy
       let d2 := t_m - t_ca * t_ca
       let t_hc := Real.sqrt (R * R - d2)
       (a.intersectRayCircle rdx rdy o = none ↔
         t_m > (Agent.VISION_DISTANCE + R) ^ 2 ∨ t_ca < 0 ∨ d2 > R * R) ∧
       (¬ t_m > (Agent.VISION_DISTANCE + R) ^ 2 → 0 ≤ t_ca → ¬ d2 > R * R →
         a.intersectRayCircle rdx rdy o =
             some (if 0 ≤ t_ca - t_hc then t_ca - t_hc else t_ca + t_hc) ∧
           0 ≤ t_ca + t_hc) ∧
       (∀ D, rdx * rdx + rdy * rdy = 1 → Lx = D * rdx → Ly = D * rdy →
         0 < R → R < D → D ^ 2 ≤ (Agent.VISION_DISTANCE + R) ^ 2 →
         a.intersectRayCircle rdx rdy o = some (D - R))) := by
  intro a o rdx rdy R hR
  have hrad : o.radius = R := radius_circle o R hR
  intro Lx Ly t_m t_ca d2 t_hc
  have hunf : a.intersectRayCircle rdx rdy o =
      if t_m > (Agent.VISION_DISTANCE + R) ^ 2 then none
      else if t_ca < 0 then none
      else if d2 > R * R then none
      else if 0 ≤ t_ca - t_hc then some (t_ca - t_hc)
      else if 0 ≤ t_ca + t_hc then some (t_ca + t_hc)
      else none := by
    unfold Agent.intersectRayCircle
    rw [hrad]
  refine ⟨?_, ?_, ?_⟩
  · rw [hunf]
    constructor
    · intro h
      by_contra hc
      push_neg at hc
      obtain ⟨h1, h2, h3⟩ := hc
      have ht1 : 0 ≤ t_ca + t_hc := add_nonneg h2 (Real.sqrt_nonneg _)
      rw [if_neg (not_lt.mpr h1), if_neg (not_lt.mpr h2), if_neg (not_lt.mpr h3)] at h
      split_ifs at h
    · intro h
      by_cases h1 : t_m > (Agent.VISION_DISTANCE + R) ^ 2
      · rw [if_pos h1]
      · rw [if_neg h1]
        by_cases h2 : t_ca < 0
        · rw [if_pos h2]
        · rw [if_neg h2]
          rcases h with hf | hg | h3
          · exact absurd hf h1
          · exact absurd hg h2
          · rw [if_pos h3]
  · intro h1 h2 h3
    have ht1 : 0 ≤ t_ca + t_hc := add_nonneg h2 (Real.sqrt_nonneg _)
    rw [hunf, if_neg h1, if_neg (not_lt.mpr h2), if_neg h3]
    refine ⟨?_, ht1⟩
    split_ifs
    · rfl
    · rfl
  · intro D hu hLx hLy hR0 hRD hV
    have htm : t_m = D ^ 2 := by
      show Lx * Lx + Ly * Ly = D ^ 2
      rw [hLx, hLy]
      nlinarith [hu]
    have htca : t_ca = D := by
      show Lx * rdx + Ly * rdy = D
      rw [hLx, hLy]
      nlinarith [hu]
    have hd2 : d2 = 0 := by
      show t_m - t_ca * t_ca = 0
      rw [htm, htca]
      ring
    have hthc : t_hc = R := by
      show Real.sqrt (R * R - d2) = R
      rw [hd2, show R * R - 0 = R ^ 2 by ring]
      exact Real.sqrt_sq hR0.le
    rw [hunf, if_neg (by rw [htm]; exact not_lt.mpr hV),
      if_neg (by rw [htca]; exact not_lt.mpr (by linarith)),
      if_neg (by rw [hd2]; exact not_lt.mpr (by nlinarith)),
      if_pos (by rw [htca, hthc]; linarith)]
    rw [htca, hthc]

/-- C6 witness: the amended characterisation applied at a concrete input
— a ray from the origin along `(1, 0)` aimed directly at the circle of
radius 2 centred at `(5, 0)` (distance `D = 5`) hits at `D - R = 3`. -/
theorem ray_circle_direct_hit_witness :
    Agent.intersectRayCircle (probeAgent 0 0 0) 1 0 circAhead5 = some 3 := by
  have h := (ray_circle_root_characterisation (probeAgent 0 0 0) circAhead5 1 0 2 rfl).2.2
  have h5 := h 5 (by norm_num)
    (by norm_num [circAhead5, circFood, probeAgent, Obj.x])
    (by norm_num [circAhead5, circFood, probeAgent, Obj.y])
    (by norm_num) (by norm_num) (by norm_num [Agent.VISION_DISTANCE])
  norm_num at h5
  exact h5

/-- C10.  Every Poison object carries the category string `"food"`
(inherited from Food): adding a Poison to a world stores it in the
`"food"` category set (for a fresh id), `get_objects('poison')` returns
the empty set on every world the simulation constructs, and the
consumption dispatch of `Agent._consume_if_possible` reaches a nearby
in-cone poison object through the same `category == 'food'` match branch
as food (so the poison effect is applied by `_process_consumption`). -/
theorem poison_category_is_food :
    ∀ (w : World) (cx cy : ℝ) (i : ℕ) (a : Agent) (rest : List Obj),
      (poisonAt i cx cy).category = "food" ∧
      ((∀ q ∈ w.getObjects "food", q.id ≠ i) →
        poisonAt i cx cy ∈ (w.addObjectPlain PlainKind.poison (cx, cy) i).getObjects "food") ∧
      (WorldReachable w → w.getObjects "poison" = []) ∧
      (¬ (Real.sqrt (((poisonAt i cx cy).x - a.x) ^ 2 + ((poisonAt i cx cy).y - a.y) ^ 2) >
            (a.radius + (poisonAt i cx cy).radius) * 1.2 ∨
          |pymod (atan2 ((poisonAt i cx cy).y - a.y) ((poisonAt i cx cy).x - a.x) +
            Real.pi - a.angle) (2 * Real.pi) - Real.pi| > Agent.VISION_ANGLE / 2) →
        a.consumeLoop (poisonAt i cx cy :: rest) =
          (a.processConsumption (poisonAt i cx cy)).map (fun a2 => (a2, some (poisonAt i cx cy)))) := by
  intro w cx cy i a rest
  refine ⟨rfl, ?_, ?_, ?_⟩
  · intro hfresh
    exact mem_getCat_addToCat w.cats "food" (poisonAt i cx cy) hfresh
  · intro h
    exact getCat_of_no_key w.cats "poison" (reachable_no_poison_key w h)
  · intro hgate
    unfold Agent.consumeLoop
    simp only []
    rw [if_neg hgate, if_pos (show (poisonAt i cx cy).category = "food" from rfl)]

/-- C1 witness: the clamping invariant applied at a concrete tick — the
starved agent `agent0` (energy 0, health `1/20000`) runs one full
update tick next to only itself, ending with energy 0 and health 0,
both inside `[0, 1]`. -/
theorem tick_bounds_witness :
    0 ≤ agent0after.energy ∧ agent0after.energy ≤ 1 ∧
      0 ≤ agent0after.health ∧ agent0after.health ≤ 1 :=
  tick_preserves_energy_health_bounds agent0 [Obj.agentObj agent0] 1 agent0after none
    (by norm_num [agent0]) (by norm_num [agent0]) (by norm_num [agent0])
    (by norm_num [agent0]) agent0_updateFull

/-- C3 counterexample.  One full `World.update` of the 800 x 600
constructor world holding the starved agent `agent0` (energy 0, health
`1/20000`): the passive cost drives the agent health to exactly 0
during the tick, yet the updated world still stores that agent — id 7
with health 0 — in its agent category.  `World.update` contains no
removal of dead agents (nothing in world.py or simulation_manager.py
removes an agent with health 0; `SimulationManager.update` only calls
`world.update()` and respawns food). -/
theorem update_keeps_dead_agent :
    (World.update w0 fids0 sps0).map
        (fun w2 => ((w2.getObjects "agent").map Obj.id,
          (w2.getObjects "agent").map Obj.health)) =
      Except.ok ([7], [0]) := by
  rw [w0_update]
  rfl

/-- C3 (amended).  A world update step never removes an agent, dead or
alive: on every non-raising `World.update` the stored agent ids (hence
the agent count) are exactly those of the previous state — an agent
whose health reached 0 remains in the world.  (The source has no
death-removal path: `Agent.update` returns the eaten object or `None`,
never the agent itself, and a successful tick always returns `None`
because consumption raises.) -/
theorem update_preserves_agent_ids :
    ∀ (w : World) (fids : ℕ → ℕ) (sps : ℕ → ℝ × ℝ) (w2 : World),
      World.update w fids sps = Except.ok w2 →
      (w2.getObjects "agent").map Obj.id = (w.getObjects "agent").map Obj.id := by
  intro w fids sps w2 h
  unfold World.update at h
  simp only [] at h
  revert h
  generalize ((w.getObjects "agent").map Obj.id).enum = l
  suffices H : ∀ (l : List (ℕ × ℕ)) (wStart w2 : World),
      l.foldlM (fun wAcc p => World.stepAgentById wAcc p.2 (fids p.1) (sps p.1)) wStart =
        Except.ok w2 →
      (w2.getObjects "agent").map Obj.id = (wStart.getObjects "agent").map Obj.id by
    intro h
    exact H l w w2 h
  intro l
  induction l with
  | nil =>
    intro wStart w2 h
    have h2 : Except.ok wStart = Except.ok w2 := h
    rw [← Except.ok.inj h2]
  | cons p rest ih =>
    intro wStart w2 h
    rw [List.foldlM_cons] at h
    cases hs : World.stepAgentById wStart p.2 (fids p.1) (sps p.1) with
    | error msg =>
      rw [hs] at h
      have h2 : (Except.error msg : Except String World) = Except.ok w2 := h
      exact Except.noConfusion h2
    | ok wNext =>
      rw [hs] at h
      rw [except_bind_ok] at h
      rw [ih wNext w2 h]
      exact stepAgentById_ids wStart p.2 (fids p.1) (sps p.1) wNext hs

/-- C3 witness: the amended theorem applied at the concrete scenario —
the update of `w0` succeeds with `wFinal`, whose stored agent ids equal
those of `w0` (namely `[7]`, the dead agent included). -/
theorem update_preserves_agent_ids_witness :
    (wFinal.getObjects "agent").map Obj.id = (w0.getObjects "agent").map Obj.id :=
  update_preserves_agent_ids w0 fids0 sps0 wFinal w0_update

end NeuroBlobSim
